import Mathlib

/-!
Shallow embedding of the mms mouse-simulator control facade
(`src/sim/MouseInterface.cpp`) and the collaborators it touches.

Conventions:
* C++ `int` is modelled as `Int`, C++ `double` (lengths, angles in degrees,
  speeds) as `ℚ`.  All arithmetic the claims are about is exact snapping /
  comparison logic, so `ℚ` is a faithful model of the intended real-number
  semantics.
* Fallible paths are explicit: operations guarded by
  `ENSURE_DISCRETE_INTERFACE` / `ENSURE_CONTINUOUS_INTERFACE` return
  `Except SimError _`; the fatal print-and-quit is the `.error` value, which
  records the offending function name and the required mode.
* Warning prints of the non-fatal validation paths are returned as a
  `List String` of messages alongside the new state.
* Components of this repository that are not under `src/` (the kinematic
  mouse discretization, the process-wide `State`, the char maps of
  `Color.h` / `Direction.h`, the `MazeGraphic` overlay) are modelled from
  the spec; each such definition carries a doc comment saying so.
-/

namespace MMS

/-- Cardinal directions, `Direction.h`. -/
inductive Direction where
  | NORTH
  | EAST
  | SOUTH
  | WEST
deriving DecidableEq, Repr

/-- The two mutually exclusive interface modes, `InterfaceType.h`. -/
inductive InterfaceType where
  | DISCRETE
  | CONTINUOUS
deriving DecidableEq, Repr

/-- Colors available for tile coloring.  Modelled from the spec: `Color.h`
is not under `src/`; the exact palette is irrelevant to the claims, only
the fact that some characters map to a color and others do not. -/
inductive Color where
  | BLACK
  | BLUE
  | GRAY
  | CYAN
  | GREEN
  | ORANGE
  | RED
  | WHITE
  | YELLOW
deriving DecidableEq, Repr

/-- Modelled from the spec: the global char-to-color map of `Color.h`
(not under `src/`).  A character either names a color or is unmapped. -/
def CHAR_TO_COLOR (c : Char) : Option Color :=
  if c = 'k' then some Color.BLACK
  else if c = 'b' then some Color.BLUE
  else if c = 'a' then some Color.GRAY
  else if c = 'c' then some Color.CYAN
  else if c = 'g' then some Color.GREEN
  else if c = 'o' then some Color.ORANGE
  else if c = 'r' then some Color.RED
  else if c = 'w' then some Color.WHITE
  else if c = 'y' then some Color.YELLOW
  else none

/-- Modelled from the spec: the global char-to-direction map of
`Direction.h` (not under `src/`): the four cardinal directions are
addressed by their lowercase initial. -/
def CHAR_TO_DIRECTION (c : Char) : Option Direction :=
  if c = 'n' then some Direction.NORTH
  else if c = 'e' then some Direction.EAST
  else if c = 's' then some Direction.SOUTH
  else if c = 'w' then some Direction.WEST
  else none

/-- Modelled from the spec: inverse of `CHAR_TO_DIRECTION` (`Direction.h`,
not under `src/`), used by `isWall` for declare-on-read. -/
def DIRECTION_TO_CHAR (d : Direction) : Char :=
  match d with
  | Direction.NORTH => 'n'
  | Direction.EAST => 'e'
  | Direction.SOUTH => 's'
  | Direction.WEST => 'w'

/-- Global parameters (`Param.h` accessors used by `MouseInterface.cpp`). -/
structure Params where
  wallLength : ℚ
  wallWidth : ℚ
  declareBothWallHalves : Bool
  discreteInterfaceDeclareWallOnRead : Bool
  algorithmControlsTileFog : Bool
  tileBaseColor : Color
deriving Repr

/-- The maze query surface: `m_maze->getWidth/getHeight` and
`getTile(x, y)->isWall(direction)`.  Read-only. -/
structure Maze where
  width : Int
  height : Int
  isWall : Int → Int → Direction → Bool

/-- The kinematic mouse collaborator: continuous pose, wheel speeds and
the read primitives the facade consumes (spec section 6). -/
structure Mouse where
  currentTranslation : ℚ × ℚ
  currentRotation : ℚ
  initialTranslation : ℚ × ℚ
  initialRotation : ℚ
  wheelSpeeds : ℚ × ℚ
  gyroDegreesPerSecond : ℚ
  hasSensor : String → Bool
  sensorValue : String → ℚ

/-- Process-wide simulation state (`State.h`: `S()`), modelled from the
spec (`State` is not under `src/`): interface type, crashed and paused
flags, simulation speed, and the input-button pressed flags. -/
structure SimState where
  interfaceType : InterfaceType
  crashed : Bool
  paused : Bool
  simSpeed : ℚ
  inputButtonWasPressed : Int → Bool

/-- The presentational overlay owned by `MazeGraphic` plus the facade-owned
`m_tilesWithColor`; modelled from the spec (`MazeGraphic` is not under
`src/`): tile colors, declared walls, fog and tile text per cell. -/
structure AnnotationState where
  tileColor : Int → Int → Color
  tilesWithColor : Int × Int → Bool
  declaredWall : Int → Int → Direction → Option Bool
  fog : Int → Int → Bool
  tileText : Int → Int → List String

/-- The full mutable state threaded through the facade operations. -/
structure MState where
  mouse : Mouse
  sim : SimState
  ann : AnnotationState

/-- The immutable environment: parameters and the maze. -/
structure Env where
  params : Params
  maze : Maze

/-- Errors that abort the run: a fatal interface-mode violation (the
`SimUtilities::print` + `SimUtilities::quit` path of
`ensureDiscreteInterface` / `ensureContinuousInterface`, recording the
offending function and the required mode), or a failed `ASSERT`. -/
inductive SimError where
  | modeViolation (callingFunction : String) (required : InterfaceType)
  | assertFailed
deriving DecidableEq, Repr

/-- Source `MouseInterface::withinMaze`. -/
def withinMaze (maze : Maze) (x y : Int) : Bool :=
  decide (0 ≤ x ∧ x < maze.width ∧ 0 ≤ y ∧ y < maze.height)

/-- Tile pitch: `P()->wallLength() + P()->wallWidth()`. -/
def tileLength (p : Params) : ℚ :=
  p.wallLength + p.wallWidth

/-- Normalization of an angle in degrees into `[0, 360)`; the comparison
form used by the `Angle` units class. -/
def norm360 (d : ℚ) : ℚ :=
  d - 360 * ⌊d / 360⌋

/-- Strict angle comparison on normalized degrees (the `Angle` `<`). -/
def angLt (a b : ℚ) : Bool :=
  decide (norm360 a < norm360 b)

/-- Modelled from the spec: `Mouse::getDiscretizedTranslation` (the
kinematic `Mouse` class is not under `src/`): the continuous position,
measured from the maze origin, floor-divided by the tile length per axis. -/
def getDiscretizedTranslation (p : Params) (m : Mouse) : Int × Int :=
  (⌊m.currentTranslation.1 / tileLength p⌋, ⌊m.currentTranslation.2 / tileLength p⌋)

/-- Modelled from the spec: `Mouse::getDiscretizedRotation` (not under
`src/`): snap the heading to the nearest cardinal direction with
wrap-around at 360.  The canonical angles, read off the destination
rotations of `moveForward`, are NORTH = 0, WEST = 90, SOUTH = 180,
EAST = 270. -/
def getDiscretizedRotation (m : Mouse) : Direction :=
  let d := norm360 m.currentRotation
  if d < 45 then Direction.NORTH
  else if d < 135 then Direction.WEST
  else if d < 225 then Direction.SOUTH
  else if d < 315 then Direction.EAST
  else Direction.NORTH

/-- The canonical destination angle of each cardinal heading, as assigned
by the `moveForward` switch. -/
def canonicalAngle (d : Direction) : ℚ :=
  match d with
  | Direction.NORTH => 0
  | Direction.WEST => 90
  | Direction.SOUTH => 180
  | Direction.EAST => 270

/-- The heading after a right turn. -/
def directionRight (d : Direction) : Direction :=
  match d with
  | Direction.NORTH => Direction.EAST
  | Direction.EAST => Direction.SOUTH
  | Direction.SOUTH => Direction.WEST
  | Direction.WEST => Direction.NORTH

/-- The heading after a left turn. -/
def directionLeft (d : Direction) : Direction :=
  match d with
  | Direction.NORTH => Direction.WEST
  | Direction.WEST => Direction.SOUTH
  | Direction.SOUTH => Direction.EAST
  | Direction.EAST => Direction.NORTH

/-- Cell offset of one step along a heading (`moveForward` switch). -/
def dirOffset (d : Direction) : Int × Int :=
  match d with
  | Direction.NORTH => (0, 1)
  | Direction.EAST => (1, 0)
  | Direction.SOUTH => (0, -1)
  | Direction.WEST => (-1, 0)

/-- Source `MouseInterface::resetPosition`: teleport to the initial translation
with rotation `Radians(0.0)`. -/
def resetPosition (st : MState) : MState :=
  { st with mouse := { st.mouse with
      currentTranslation := st.mouse.initialTranslation
      currentRotation := 0 } }

/-- Source `MouseInterface::inputButtonPressed`: out-of-range button numbers are
rejected with a printed error and `false`; otherwise the process-wide
pressed flag is returned. -/
def inputButtonPressed (k : Int) (st : MState) : Bool × List String :=
  if k < 0 ∨ 9 < k then
    (false, ["Error: There is no input button with the number " ++ toString k
      ++ ", and thus you cannot check to see if it has been pressed."])
  else
    (st.sim.inputButtonWasPressed k, [])

/-- Modelled from the spec: `State::setInputButtonWasPressed` (not under
`src/`): point update of the pressed flag for one button. -/
def setInputButtonWasPressed (k : Int) (v : Bool) (st : MState) : MState :=
  { st with sim := { st.sim with
      inputButtonWasPressed := fun i => if i = k then v else st.sim.inputButtonWasPressed i } }

/-- Source `MouseInterface::acknowledgeInputButtonPressed`: out-of-range button
numbers are rejected with a printed error and no state change; otherwise
the pressed flag is cleared. -/
def acknowledgeInputButtonPressed (k : Int) (st : MState) : MState × List String :=
  if k < 0 ∨ 9 < k then
    (st, ["Error: There is no input button with the number " ++ toString k
      ++ ", and thus you cannot acknowledge that it has been pressed."])
  else
    (setInputButtonWasPressed k false st, [])

/-- Point update of the `MazeGraphic` tile-color overlay
(`m_mazeGraphic->setTileColor`); modelled from the spec. -/
def mazeGraphicSetTileColor (x y : Int) (c : Color) (st : MState) : MState :=
  { st with ann := { st.ann with
      tileColor := fun a b => if a = x ∧ b = y then c else st.ann.tileColor a b } }

/-- Point update of the `MazeGraphic` declared-wall overlay
(`m_mazeGraphic->declareWall` / `undeclareWall`, with `none` meaning
undeclared); modelled from the spec. -/
def setDeclaredWall (x y : Int) (d : Direction) (v : Option Bool) (st : MState) : MState :=
  { st with ann := { st.ann with
      declaredWall := fun a b e =>
        if a = x ∧ b = y ∧ e = d then v else st.ann.declaredWall a b e } }

/-- Source `MouseInterface::setTileColor`: bounds- and color-char-validated with a
warning-and-return policy; on success paints the tile and records it in
`m_tilesWithColor`. -/
def setTileColor (env : Env) (x y : Int) (color : Char) (st : MState) : MState × List String :=
  if !(withinMaze env.maze x y) then
    (st, ["There is no tile at position (" ++ toString x ++ ", " ++ toString y
      ++ ") and thus you cannot set its color."])
  else
    match CHAR_TO_COLOR color with
    | none =>
      (st, ["You cannot set the color of tile (" ++ toString x ++ ", " ++ toString y
        ++ ") since the given character is not mapped to a color."])
    | some col =>
      let st1 := mazeGraphicSetTileColor x y col st
      ({ st1 with ann := { st1.ann with
          tilesWithColor := fun p => if p = (x, y) then true else st1.ann.tilesWithColor p } },
       [])

/-- Source `MouseInterface::clearTileColor`: bounds-validated; on success repaints
the base color and removes the tile from `m_tilesWithColor`. -/
def clearTileColor (env : Env) (x y : Int) (st : MState) : MState × List String :=
  if !(withinMaze env.maze x y) then
    (st, ["There is no tile at position (" ++ toString x ++ ", " ++ toString y
      ++ ") and thus you cannot clear its color."])
  else
    let st1 := mazeGraphicSetTileColor x y env.params.tileBaseColor st
    ({ st1 with ann := { st1.ann with
        tilesWithColor := fun p => if p = (x, y) then false else st1.ann.tilesWithColor p } },
     [])

/-- Source `MouseInterface::hasOpposingWall`: whether the positionally opposing
half of the wall lies on a tile that exists in the maze. -/
def hasOpposingWall (maze : Maze) (x y : Int) (d : Direction) : Bool :=
  match d with
  | Direction.NORTH => decide (y < maze.height - 1)
  | Direction.EAST => decide (x < maze.width - 1)
  | Direction.SOUTH => decide (y > 0)
  | Direction.WEST => decide (x > 0)

/-- Source `MouseInterface::getOpposingWall`: the positionally opposing tile and
direction.  The source `ASSERT`s `hasOpposingWall` first; callers below
only use the result under that condition. -/
def getOpposingWall (x y : Int) (d : Direction) : (Int × Int) × Direction :=
  match d with
  | Direction.NORTH => ((x, y + 1), Direction.SOUTH)
  | Direction.EAST => ((x + 1, y), Direction.WEST)
  | Direction.SOUTH => ((x, y - 1), Direction.NORTH)
  | Direction.WEST => ((x - 1, y), Direction.EAST)

/-- Source `MouseInterface::declareWall`: bounds- and direction-char-validated;
declares the wall on the overlay and, when `declareBothWallHalves` is set
and the opposing half exists, declares the opposing half identically. -/
def declareWall (env : Env) (x y : Int) (direction : Char) (wallExists : Bool) (st : MState) :
    MState × List String :=
  if !(withinMaze env.maze x y) then
    (st, ["Error: There is no tile at position (" ++ toString x ++ ", " ++ toString y
      ++ "), and thus you cannot declare any of its walls."])
  else
    match CHAR_TO_DIRECTION direction with
    | none =>
      (st, ["The character " ++ toString direction ++ " is not mapped to a valid direction."])
    | some d =>
      let st1 := setDeclaredWall x y d (some wallExists) st
      if env.params.declareBothWallHalves && hasOpposingWall env.maze x y d then
        let opposing := getOpposingWall x y d
        (setDeclaredWall opposing.1.1 opposing.1.2 opposing.2 (some wallExists) st1, [])
      else
        (st1, [])

/-- Source `MouseInterface::undeclareWall`: bounds- and direction-char-validated;
undeclares the wall and, when `declareBothWallHalves` is set and the
opposing half exists, undeclares the opposing half too. -/
def undeclareWall (env : Env) (x y : Int) (direction : Char) (st : MState) :
    MState × List String :=
  if !(withinMaze env.maze x y) then
    (st, ["Error: There is no tile at position (" ++ toString x ++ ", " ++ toString y
      ++ "), and thus you cannot undeclare any of its walls."])
  else
    match CHAR_TO_DIRECTION direction with
    | none =>
      (st, ["The character " ++ toString direction ++ " is not mapped to a valid direction."])
    | some d =>
      let st1 := setDeclaredWall x y d none st
      if env.params.declareBothWallHalves && hasOpposingWall env.maze x y d then
        let opposing := getOpposingWall x y d
        (setDeclaredWall opposing.1.1 opposing.1.2 opposing.2 none st1, [])
      else
        (st1, [])

/-- Source `MouseInterface::setTileFogginess`: bounds-validated with a printed
error; when the algorithm does not control tile fog, returns silently
(the source has a TODO where the error statement would be). -/
def setTileFogginess (env : Env) (x y : Int) (foggy : Bool) (st : MState) :
    MState × List String :=
  if !(withinMaze env.maze x y) then
    (st, ["Error: There is no tile at position (" ++ toString x ++ ", " ++ toString y
      ++ "), and thus you cannot set its fogginess."])
  else if !env.params.algorithmControlsTileFog then
    (st, [])
  else
    ({ st with ann := { st.ann with
        fog := fun a b => if a = x ∧ b = y then foggy else st.ann.fog a b } },
     [])

/-- Source `MouseInterface::declareTileDistance`: bounds-validated; sets the tile
text to the rendered distance. -/
def declareTileDistance (env : Env) (x y : Int) (distance : Int) (st : MState) :
    MState × List String :=
  if !(withinMaze env.maze x y) then
    (st, ["Error: There is no tile at position (" ++ toString x ++ ", " ++ toString y
      ++ "), and thus you cannot set its distance."])
  else
    ({ st with ann := { st.ann with
        tileText := fun a b => if a = x ∧ b = y then [toString distance] else st.ann.tileText a b } },
     [])

/-- Source `MouseInterface::undeclareTileDistance`: bounds-validated; clears the
tile text. -/
def undeclareTileDistance (env : Env) (x y : Int) (st : MState) : MState × List String :=
  if !(withinMaze env.maze x y) then
    (st, ["Error: There is no tile at position (" ++ toString x ++ ", " ++ toString y
      ++ "), and thus you cannot clear its distance."])
  else
    ({ st with ann := { st.ann with
        tileText := fun a b => if a = x ∧ b = y then [] else st.ann.tileText a b } },
     [])

/-- Source `MouseInterface::ensureDiscreteInterface`: a call in the wrong mode
prints the offending function and the required mode and quits the run,
modelled as the `.error` value. -/
def ensureDiscreteInterface (callingFunction : String) (st : MState) : Except SimError Unit :=
  if st.sim.interfaceType ≠ InterfaceType.DISCRETE then
    Except.error (SimError.modeViolation callingFunction InterfaceType.DISCRETE)
  else
    Except.ok ()

/-- Source `MouseInterface::ensureContinuousInterface`: dual of
`ensureDiscreteInterface`. -/
def ensureContinuousInterface (callingFunction : String) (st : MState) : Except SimError Unit :=
  if st.sim.interfaceType ≠ InterfaceType.CONTINUOUS then
    Except.error (SimError.modeViolation callingFunction InterfaceType.CONTINUOUS)
  else
    Except.ok ()

/-- Source `MouseInterface::setWheelSpeeds`: continuous-only passthrough to the
kinematic mouse. -/
def setWheelSpeedsOp (l r : ℚ) (st : MState) : Except SimError MState := do
  let _ ← ensureContinuousInterface "setWheelSpeeds" st
  return { st with mouse := { st.mouse with wheelSpeeds := (l, r) } }

/-- Source `MouseInterface::read`: continuous-only; validates the sensor name
(unknown names warn and return 0.0), then returns the sensor value.  The
wall-clock timing, late-read diagnostic and frame-interval sleep of the
source are real-time effects with no bearing on the modelled state. -/
def readOp (name : String) (st : MState) : Except SimError (ℚ × List String) := do
  let _ ← ensureContinuousInterface "read" st
  if !(st.mouse.hasSensor name) then
    return (0, ["Error: There is no sensor called " ++ name
      ++ " and thus you cannot read its value."])
  else
    return (st.mouse.sensorValue name, [])

/-- Source `MouseInterface::readGyro`: continuous-only passthrough returning the
gyro reading in degrees per second. -/
def readGyroOp (st : MState) : Except SimError ℚ := do
  let _ ← ensureContinuousInterface "readGyro" st
  return st.mouse.gyroDegreesPerSecond

/-- Source `MouseInterface::isWall`: reads the maze wall value and, when
`discreteInterfaceDeclareWallOnRead` is set, mirrors it into the overlay
through `declareWall`.  The leading bounds `ASSERT` of the source is
carried as a bounds hypothesis by the theorems that rely on it. -/
def isWall (env : Env) (position : Int × Int) (direction : Direction) (st : MState) :
    Bool × MState :=
  let wallExists := env.maze.isWall position.1 position.2 direction
  if env.params.discreteInterfaceDeclareWallOnRead then
    (wallExists, (declareWall env position.1 position.2 (DIRECTION_TO_CHAR direction) wallExists st).1)
  else
    (wallExists, st)

/-- Source `MouseInterface::wallFront`: discrete-only; queries the wall at the
discretized cell in the discretized heading. -/
def wallFront (env : Env) (st : MState) : Except SimError (Bool × MState) := do
  let _ ← ensureDiscreteInterface "wallFront" st
  return isWall env (getDiscretizedTranslation env.params st.mouse) (getDiscretizedRotation st.mouse) st

/-- Source `MouseInterface::wallRight`: discrete-only; queries the wall to the
right of the discretized heading. -/
def wallRight (env : Env) (st : MState) : Except SimError (Bool × MState) := do
  let _ ← ensureDiscreteInterface "wallRight" st
  let position := getDiscretizedTranslation env.params st.mouse
  match getDiscretizedRotation st.mouse with
  | Direction.NORTH => return isWall env position Direction.EAST st
  | Direction.EAST => return isWall env position Direction.SOUTH st
  | Direction.SOUTH => return isWall env position Direction.WEST st
  | Direction.WEST => return isWall env position Direction.NORTH st

/-- Source `MouseInterface::wallLeft`: discrete-only; queries the wall to the
left of the discretized heading. -/
def wallLeft (env : Env) (st : MState) : Except SimError (Bool × MState) := do
  let _ ← ensureDiscreteInterface "wallLeft" st
  let position := getDiscretizedTranslation env.params st.mouse
  match getDiscretizedRotation st.mouse with
  | Direction.NORTH => return isWall env position Direction.WEST st
  | Direction.EAST => return isWall env position Direction.NORTH st
  | Direction.SOUTH => return isWall env position Direction.EAST st
  | Direction.WEST => return isWall env position Direction.SOUTH st

/-- Source `S()->setCrashed()` guarded by `!S()->crashed()` as in the `moveForward`
crash branch; the net effect is `crashed := true`. -/
def setCrashed (st : MState) : MState :=
  if !st.sim.crashed then
    { st with sim := { st.sim with crashed := true } }
  else
    st

/-- End of a motion loop: both wheel speeds zeroed, then the pose
teleported exactly onto the computed destination. -/
def teleportZeroed (destT : ℚ × ℚ) (destR : ℚ) (st : MState) : MState :=
  { st with mouse := { st.mouse with
      wheelSpeeds := (0, 0)
      currentTranslation := destT
      currentRotation := destR } }

/-- The absolute destination pose computed by the `moveForward` switch:
the current cell re-based at `tileLength * cell + initialTranslation`,
shifted one tile along the discretized heading, with the canonical
destination rotation for that heading. -/
def moveForwardDest (env : Env) (m : Mouse) : (ℚ × ℚ) × ℚ :=
  let tl := tileLength env.params
  let d := getDiscretizedTranslation env.params m
  let currentX := tl * (d.1 : ℚ) + m.initialTranslation.1
  let currentY := tl * (d.2 : ℚ) + m.initialTranslation.2
  match getDiscretizedRotation m with
  | Direction.NORTH => ((currentX, currentY + tl), 0)
  | Direction.EAST => ((currentX + tl, currentY), 270)
  | Direction.SOUTH => ((currentX, currentY - tl), 180)
  | Direction.WEST => ((currentX - tl, currentY), 90)

/-- Source `MouseInterface::moveForward`, final-state model of a completed call:
discrete-only; a declared wall ahead sets the crashed flag and returns
without moving; otherwise the motion-to-target loop runs to completion
and its only lasting effects are the zeroed wheels and the teleport onto
the computed destination (the loop itself only commands transient wheel
speeds and sleeps; it is modelled event-by-event in `moveForwardBodyTrace`). -/
def moveForward (env : Env) (st : MState) : Except SimError MState := do
  let _ ← ensureDiscreteInterface "moveForward" st
  let wf ← wallFront env st
  if wf.1 then
    return setCrashed wf.2
  else
    let dest := moveForwardDest env wf.2.mouse
    return teleportZeroed dest.1 dest.2 wf.2

/-- Source `MouseInterface::turnRight`, final-state model of a completed call:
discrete-only; the destination is the unchanged current translation and
the current rotation minus 90 degrees, and the completed loop leaves only
the zeroed wheels and the teleport onto that destination (the loop is
modelled event-by-event in `turnRightBodyTrace`). -/
def turnRight (env : Env) (st : MState) : Except SimError MState := do
  let _ ← ensureDiscreteInterface "turnRight" st
  return teleportZeroed st.mouse.currentTranslation (st.mouse.currentRotation - 90) st

/-- Source `MouseInterface::turnLeft`, final-state model of a completed call:
destination rotation is the current rotation plus 90 degrees. -/
def turnLeft (env : Env) (st : MState) : Except SimError MState := do
  let _ ← ensureDiscreteInterface "turnLeft" st
  return teleportZeroed st.mouse.currentTranslation (st.mouse.currentRotation + 90) st

/-- Source `MouseInterface::turnAround`: discrete-only; composed of two
`turnRight` calls, exactly as in the source. -/
def turnAround (env : Env) (st : MState) : Except SimError MState := do
  let _ ← ensureDiscreteInterface "turnAround" st
  let st1 ← turnRight env st
  turnRight env st1

/-- The spec-side reading of `turnAround` (spec section 4.5 and the
testable property list): literally two sequential `turnRight` calls. -/
def turnAroundSpec (env : Env) (st : MState) : Except SimError MState := do
  let st1 ← turnRight env st
  turnRight env st1

/-- Continuous pose as observed by a motion loop at a condition check. -/
structure Pose where
  x : ℚ
  y : ℚ
  rot : ℚ
deriving DecidableEq, Repr

/-- Observable commands a motion loop issues to the kinematic mouse. -/
inductive Event where
  | setWheelSpeeds (l r : ℚ)
  | sleep
  | teleport (x y rot : ℚ)
deriving DecidableEq, Repr

/-- Whether an event is a teleport command. -/
def Event.isTeleport (e : Event) : Bool :=
  match e with
  | Event.teleport _ _ _ => true
  | _ => false

/-- The wheel speeds last commanded in a list of events, if any. -/
def lastSpeeds (tr : List Event) : Option (ℚ × ℚ) :=
  tr.foldl
    (fun acc e =>
      match e with
      | Event.setWheelSpeeds l r => some (l, r)
      | _ => acc)
    none

/-- One `while (cond) { checkPaused(); setWheelSpeeds(l, r); sleep(tick); }`
loop.  `obs i` is the pose the external kinematic integrator presents at
the i-th condition check (the run is assumed unpaused: `checkPaused` then
issues no commands).  `fuel` bounds the number of iterations; `none` means
the loop had not terminated within `fuel` checks.  On exit the trace of
issued commands and the pose observed at the final (failing) check are
returned. -/
def motionLoop (fuel : Nat) (obs : Nat → Pose) (cond : Pose → Bool) (l r : ℚ) :
    Option (List Event × Pose) :=
  match fuel with
  | 0 => if cond (obs 0) then none else some ([], obs 0)
  | Nat.succ n =>
    if cond (obs 0) then
      match motionLoop n (fun i => obs (i + 1)) cond l r with
      | none => none
      | some (tr, p) => some (Event.setWheelSpeeds l r :: Event.sleep :: tr, p)
    else
      some ([], obs 0)

/-- A full motion-to-target loop as in the tails of `moveForward`,
`turnRight` and `turnLeft`: run the loop, then zero both wheel speeds and
teleport exactly onto the destination. -/
def runMotion (fuel : Nat) (obs : Nat → Pose) (cond : Pose → Bool) (l r : ℚ)
    (destT : ℚ × ℚ) (destR : ℚ) : Option (List Event × Pose) :=
  match motionLoop fuel obs cond l r with
  | none => none
  | some (tr, p) =>
    some (tr ++ [Event.setWheelSpeeds 0 0, Event.teleport destT.1 destT.2 destR], p)

/-- The termination condition of the `moveForward` loop for the heading
discretized from `m`: a one-sided inequality on the axis of travel
against the destination coordinate. -/
def moveForwardCond (env : Env) (m : Mouse) : Pose → Bool :=
  let dest := (moveForwardDest env m).1
  match getDiscretizedRotation m with
  | Direction.NORTH => fun p => decide (p.y < dest.2)
  | Direction.EAST => fun p => decide (p.x < dest.1)
  | Direction.SOUTH => fun p => decide (dest.2 < p.y)
  | Direction.WEST => fun p => decide (dest.1 < p.x)

/-- The termination condition of the `turnRight` loop, on normalized
angle comparisons, with the special NORTH and WEST cases of the source
handling the 0/360 wrap. -/
def turnRightCond (m : Mouse) : Pose → Bool :=
  let destR := m.currentRotation - 90
  match getDiscretizedRotation m with
  | Direction.NORTH => fun p => angLt destR p.rot || angLt p.rot 180
  | Direction.EAST => fun p => angLt destR p.rot
  | Direction.SOUTH => fun p => angLt destR p.rot
  | Direction.WEST => fun p => angLt p.rot 180

/-- The termination condition of the `turnLeft` loop, dual to
`turnRightCond`. -/
def turnLeftCond (m : Mouse) : Pose → Bool :=
  let destR := m.currentRotation + 90
  match getDiscretizedRotation m with
  | Direction.NORTH => fun p => angLt p.rot destR || angLt (180 : ℚ) p.rot
  | Direction.EAST => fun p => angLt (180 : ℚ) p.rot
  | Direction.SOUTH => fun p => angLt p.rot destR
  | Direction.WEST => fun p => angLt p.rot destR

/-- Event-level model of the body of `moveForward` after its mode guard:
the crash branch issues no motion commands; otherwise the loop commands
`(-simSpeed, simSpeed)` wheel speeds each iteration and, once the
termination predicate fails, zeroes the wheels and teleports onto the
destination. -/
def moveForwardBodyTrace (env : Env) (st : MState) (fuel : Nat) (obs : Nat → Pose) :
    Option (List Event × Pose) :=
  let wf := isWall env (getDiscretizedTranslation env.params st.mouse)
    (getDiscretizedRotation st.mouse) st
  if wf.1 then
    some ([], obs 0)
  else
    let dest := moveForwardDest env st.mouse
    runMotion fuel obs (moveForwardCond env st.mouse)
      (-st.sim.simSpeed) st.sim.simSpeed dest.1 dest.2

/-- Event-level model of the body of `turnRight` after its mode guard:
the loop commands `(simSpeed/2, simSpeed/2)` each iteration, then zeroes
the wheels and teleports onto the unchanged translation at the current
rotation minus 90 degrees. -/
def turnRightBodyTrace (st : MState) (fuel : Nat) (obs : Nat → Pose) :
    Option (List Event × Pose) :=
  runMotion fuel obs (turnRightCond st.mouse)
    (st.sim.simSpeed / 2) (st.sim.simSpeed / 2)
    st.mouse.currentTranslation (st.mouse.currentRotation - 90)

/-- Event-level model of the body of `turnLeft` after its mode guard:
the loop commands `(-simSpeed/2, -simSpeed/2)` each iteration, then
zeroes the wheels and teleports onto the unchanged translation at the
current rotation plus 90 degrees. -/
def turnLeftBodyTrace (st : MState) (fuel : Nat) (obs : Nat → Pose) :
    Option (List Event × Pose) :=
  runMotion fuel obs (turnLeftCond st.mouse)
    (-(st.sim.simSpeed / 2)) (-(st.sim.simSpeed / 2))
    st.mouse.currentTranslation (st.mouse.currentRotation + 90)

/-- A small wall-free maze used to evaluate the model on concrete runs. -/
def testMaze : Maze :=
  { width := 3, height := 3, isWall := fun _ _ _ => false }

/-- A maze of the same size whose every declared wall is present. -/
def testMazeWalls : Maze :=
  { width := 3, height := 3, isWall := fun _ _ _ => true }

/-- Concrete parameters: unit tile pitch, both-wall-halves coupling on,
declare-on-read off. -/
def testParams : Params :=
  { wallLength := 1
    wallWidth := 0
    declareBothWallHalves := true
    discreteInterfaceDeclareWallOnRead := false
    algorithmControlsTileFog := true
    tileBaseColor := Color.BLACK }

/-- Environment over the wall-free maze. -/
def testEnv : Env :=
  { params := testParams, maze := testMaze }

/-- Environment over the all-walls maze. -/
def testEnvWalls : Env :=
  { params := testParams, maze := testMazeWalls }

/-- A mouse at the center of cell (0, 0), heading NORTH at the canonical
angle. -/
def testMouse : Mouse :=
  { currentTranslation := (1 / 2, 1 / 2)
    currentRotation := 0
    initialTranslation := (1 / 2, 1 / 2)
    initialRotation := 0
    wheelSpeeds := (0, 0)
    gyroDegreesPerSecond := 0
    hasSensor := fun _ => false
    sensorValue := fun _ => 0 }

/-- An empty annotation overlay. -/
def testAnn : AnnotationState :=
  { tileColor := fun _ _ => Color.BLACK
    tilesWithColor := fun _ => false
    declaredWall := fun _ _ _ => none
    fog := fun _ _ => false
    tileText := fun _ _ => [] }

/-- Process-wide state in the given mode, not crashed, not paused. -/
def testSim (it : InterfaceType) : SimState :=
  { interfaceType := it
    crashed := false
    paused := false
    simSpeed := 1
    inputButtonWasPressed := fun _ => false }

/-- A full concrete state in the given interface mode. -/
def testState (it : InterfaceType) : MState :=
  { mouse := testMouse, sim := testSim it, ann := testAnn }

/-- A discrete-mode state whose rotation is 3 degrees: discretized heading
NORTH, but not at the canonical angle. -/
def stC4 : MState :=
  { mouse := { testMouse with currentRotation := 3 }
    sim := testSim InterfaceType.DISCRETE
    ann := testAnn }

/-! ## Helper lemmas -/

theorem setDeclaredWall_mouse_eq (x y : Int) (d : Direction) (v : Option Bool) (st : MState) :
    (setDeclaredWall x y d v st).mouse = st.mouse :=
  rfl

theorem declareWall_mouse_eq (env : Env) (x y : Int) (c : Char) (b : Bool) (st : MState) :
    ((declareWall env x y c b st).1).mouse = st.mouse := by
  unfold declareWall
  split
  · rfl
  · split
    · rfl
    · split
      · rfl
      · rfl

theorem declareWall_sim_eq (env : Env) (x y : Int) (c : Char) (b : Bool) (st : MState) :
    ((declareWall env x y c b st).1).sim = st.sim := by
  unfold declareWall
  split
  · rfl
  · split
    · rfl
    · split
      · rfl
      · rfl

theorem isWall_fst (env : Env) (pos : Int × Int) (d : Direction) (st : MState) :
    (isWall env pos d st).1 = env.maze.isWall pos.1 pos.2 d := by
  unfold isWall
  split
  · rfl
  · rfl

theorem isWall_mouse_eq (env : Env) (pos : Int × Int) (d : Direction) (st : MState) :
    ((isWall env pos d st).2).mouse = st.mouse := by
  unfold isWall
  split
  · exact declareWall_mouse_eq env pos.1 pos.2 (DIRECTION_TO_CHAR d) (env.maze.isWall pos.1 pos.2 d) st
  · rfl

theorem isWall_sim_eq (env : Env) (pos : Int × Int) (d : Direction) (st : MState) :
    ((isWall env pos d st).2).sim = st.sim := by
  unfold isWall
  split
  · exact declareWall_sim_eq env pos.1 pos.2 (DIRECTION_TO_CHAR d) (env.maze.isWall pos.1 pos.2 d) st
  · rfl

theorem setCrashed_mouse_eq (st : MState) : (setCrashed st).mouse = st.mouse := by
  unfold setCrashed
  split
  · rfl
  · rfl

theorem setCrashed_crashed (st : MState) : (setCrashed st).sim.crashed = true := by
  unfold setCrashed
  split
  · rfl
  · next h => simpa using h

theorem setCrashed_interfaceType (st : MState) :
    (setCrashed st).sim.interfaceType = st.sim.interfaceType := by
  unfold setCrashed
  split
  · rfl
  · rfl

theorem ensureDiscrete_ok (f : String) (st : MState)
    (h : st.sim.interfaceType = InterfaceType.DISCRETE) :
    ensureDiscreteInterface f st = Except.ok () := by
  unfold ensureDiscreteInterface
  simp [h]

theorem ensureContinuous_ok (f : String) (st : MState)
    (h : st.sim.interfaceType = InterfaceType.CONTINUOUS) :
    ensureContinuousInterface f st = Except.ok () := by
  unfold ensureContinuousInterface
  simp [h]

theorem ensureDiscrete_error (f : String) (st : MState)
    (h : st.sim.interfaceType ≠ InterfaceType.DISCRETE) :
    ensureDiscreteInterface f st =
      Except.error (SimError.modeViolation f InterfaceType.DISCRETE) := by
  unfold ensureDiscreteInterface
  simp [h]

theorem ensureContinuous_error (f : String) (st : MState)
    (h : st.sim.interfaceType ≠ InterfaceType.CONTINUOUS) :
    ensureContinuousInterface f st =
      Except.error (SimError.modeViolation f InterfaceType.CONTINUOUS) := by
  unfold ensureContinuousInterface
  simp [h]

theorem except_bind_error {α β : Type} (e : SimError) (f : α → Except SimError β) :
    (Except.error e >>= f) = Except.error e :=
  rfl

theorem except_bind_ok {α β : Type} (a : α) (f : α → Except SimError β) :
    (Except.ok a >>= f) = f a :=
  rfl

theorem except_map_error {α β : Type} (e : SimError) (f : α → β) :
    (f <$> (Except.error e : Except SimError α)) = Except.error e :=
  rfl

theorem except_map_ok {α β : Type} (a : α) (f : α → β) :
    (f <$> (Except.ok a : Except SimError α)) = Except.ok (f a) :=
  rfl

/-! ## Claim theorems -/

/-- C10: `resetPosition` always teleports the mouse to its initial
translation with rotation exactly 0 radians, for every current pose and
regardless of what the initial rotation was (the statement holds for all
states, so in particular for every value of `initialRotation`). -/
theorem C10_resetPosition (st : MState) :
    (resetPosition st).mouse.currentTranslation = st.mouse.initialTranslation ∧
    (resetPosition st).mouse.currentRotation = 0 :=
  ⟨rfl, rfl⟩

/-- C1: every continuous-only operation called while the interface type is
not CONTINUOUS, and every discrete-only operation called while it is not
DISCRETE, stops with a fatal mode-violation error that names the offending
operation and the required mode; it never silently proceeds. -/
theorem C1_mode_enforcement (env : Env) (st : MState) (l r : ℚ) (name : String) :
    (st.sim.interfaceType ≠ InterfaceType.CONTINUOUS →
      setWheelSpeedsOp l r st =
        Except.error (SimError.modeViolation "setWheelSpeeds" InterfaceType.CONTINUOUS) ∧
      readOp name st =
        Except.error (SimError.modeViolation "read" InterfaceType.CONTINUOUS) ∧
      readGyroOp st =
        Except.error (SimError.modeViolation "readGyro" InterfaceType.CONTINUOUS)) ∧
    (st.sim.interfaceType ≠ InterfaceType.DISCRETE →
      wallFront env st =
        Except.error (SimError.modeViolation "wallFront" InterfaceType.DISCRETE) ∧
      wallLeft env st =
        Except.error (SimError.modeViolation "wallLeft" InterfaceType.DISCRETE) ∧
      wallRight env st =
        Except.error (SimError.modeViolation "wallRight" InterfaceType.DISCRETE) ∧
      moveForward env st =
        Except.error (SimError.modeViolation "moveForward" InterfaceType.DISCRETE) ∧
      turnLeft env st =
        Except.error (SimError.modeViolation "turnLeft" InterfaceType.DISCRETE) ∧
      turnRight env st =
        Except.error (SimError.modeViolation "turnRight" InterfaceType.DISCRETE) ∧
      turnAround env st =
        Except.error (SimError.modeViolation "turnAround" InterfaceType.DISCRETE)) := by
  constructor
  · intro h
    refine ⟨?_, ?_, ?_⟩ <;>
      simp [setWheelSpeedsOp, readOp, readGyroOp, ensureContinuous_error _ _ h,
        except_bind_error]
  · intro h
    refine ⟨?_, ?_, ?_, ?_, ?_, ?_, ?_⟩ <;>
      simp [wallFront, wallLeft, wallRight, moveForward, turnLeft, turnRight, turnAround,
        ensureDiscrete_error _ _ h, except_bind_error, except_map_error]

/-- Witness for C1 at concrete states: a DISCRETE-mode state rejects the
continuous surface and a CONTINUOUS-mode state rejects the discrete
surface. -/
theorem C1_mode_enforcement_witness :
    ((testState InterfaceType.DISCRETE).sim.interfaceType ≠ InterfaceType.CONTINUOUS ∧
      setWheelSpeedsOp 1 2 (testState InterfaceType.DISCRETE) =
        Except.error (SimError.modeViolation "setWheelSpeeds" InterfaceType.CONTINUOUS)) ∧
    ((testState InterfaceType.CONTINUOUS).sim.interfaceType ≠ InterfaceType.DISCRETE ∧
      moveForward testEnv (testState InterfaceType.CONTINUOUS) =
        Except.error (SimError.modeViolation "moveForward" InterfaceType.DISCRETE)) := by
  constructor
  · exact ⟨by decide,
      ((C1_mode_enforcement testEnv (testState InterfaceType.DISCRETE) 1 2 "s").1
        (by decide)).1⟩
  · refine ⟨by decide, ?_⟩
    have h := (C1_mode_enforcement testEnv (testState InterfaceType.CONTINUOUS) 1 2 "s").2
      (by decide)
    exact h.2.2.2.1

/-- C8: acknowledging an in-range input button clears its pressed flag, so
a query returns false until the button is externally re-pressed; an
out-of-range button number makes the query return false and the
acknowledge leave the state untouched, and both return normally. -/
theorem C8_input_buttons (st : MState) (k : Int) :
    (0 ≤ k ∧ k ≤ 9 →
      (inputButtonPressed k (acknowledgeInputButtonPressed k st).1).1 = false ∧
      (inputButtonPressed k
        (setInputButtonWasPressed k true (acknowledgeInputButtonPressed k st).1)).1 = true) ∧
    (k < 0 ∨ 9 < k →
      (inputButtonPressed k st).1 = false ∧
      (acknowledgeInputButtonPressed k st).1 = st) := by
  constructor
  · intro h
    have hk : ¬(k < 0 ∨ 9 < k) := by omega
    simp [inputButtonPressed, acknowledgeInputButtonPressed, setInputButtonWasPressed, hk]
  · intro h
    simp [inputButtonPressed, acknowledgeInputButtonPressed, h]

/-- Witness for C8 at button 3 (in range) and button 12 (out of range). -/
theorem C8_input_buttons_witness :
    ((0 : Int) ≤ 3 ∧ (3 : Int) ≤ 9 ∧
      (inputButtonPressed 3
        (acknowledgeInputButtonPressed 3 (testState InterfaceType.DISCRETE)).1).1 = false) ∧
    (9 < (12 : Int) ∧
      (inputButtonPressed 12 (testState InterfaceType.DISCRETE)).1 = false ∧
      (acknowledgeInputButtonPressed 12 (testState InterfaceType.DISCRETE)).1 =
        testState InterfaceType.DISCRETE) := by
  constructor
  · refine ⟨by decide, by decide, ?_⟩
    exact ((C8_input_buttons (testState InterfaceType.DISCRETE) 3).1 (by decide)).1
  · refine ⟨by decide, ?_, ?_⟩
    · exact ((C8_input_buttons (testState InterfaceType.DISCRETE) 12).2 (by decide)).1
    · exact ((C8_input_buttons (testState InterfaceType.DISCRETE) 12).2 (by decide)).2

/-- C9: every tile-annotation operation, on invalid input (out-of-bounds
cell, or a character not mapped to a color or direction), emits a message,
changes no state at all, and returns normally (the operations are total
state transformers, never the fatal `SimError` path), so execution
continues. -/
theorem C9_annotation_validation (env : Env) (x y : Int) (c : Char) (b foggy : Bool)
    (dist : Int) (st : MState) :
    (withinMaze env.maze x y = false →
      ((setTileColor env x y c st).1 = st ∧ (setTileColor env x y c st).2 ≠ []) ∧
      ((clearTileColor env x y st).1 = st ∧ (clearTileColor env x y st).2 ≠ []) ∧
      ((declareWall env x y c b st).1 = st ∧ (declareWall env x y c b st).2 ≠ []) ∧
      ((undeclareWall env x y c st).1 = st ∧ (undeclareWall env x y c st).2 ≠ []) ∧
      ((setTileFogginess env x y foggy st).1 = st ∧ (setTileFogginess env x y foggy st).2 ≠ []) ∧
      ((declareTileDistance env x y dist st).1 = st ∧ (declareTileDistance env x y dist st).2 ≠ []) ∧
      ((undeclareTileDistance env x y st).1 = st ∧ (undeclareTileDistance env x y st).2 ≠ [])) ∧
    (withinMaze env.maze x y = true → CHAR_TO_COLOR c = none →
      (setTileColor env x y c st).1 = st ∧ (setTileColor env x y c st).2 ≠ []) ∧
    (withinMaze env.maze x y = true → CHAR_TO_DIRECTION c = none →
      ((declareWall env x y c b st).1 = st ∧ (declareWall env x y c b st).2 ≠ []) ∧
      ((undeclareWall env x y c st).1 = st ∧ (undeclareWall env x y c st).2 ≠ [])) := by
  refine ⟨?_, ?_, ?_⟩
  · intro h
    refine ⟨?_, ?_, ?_, ?_, ?_, ?_, ?_⟩ <;>
      simp [setTileColor, clearTileColor, declareWall, undeclareWall, setTileFogginess,
        declareTileDistance, undeclareTileDistance, h]
  · intro h hc
    simp [setTileColor, h, hc]
  · intro h hc
    constructor <;> simp [declareWall, undeclareWall, h, hc]

/-- Witness for C9: the out-of-bounds cell (-1, 0) and, at the in-bounds
cell (0, 0), the character x mapped to neither a color nor a direction. -/
theorem C9_annotation_validation_witness :
    (withinMaze testEnv.maze (-1) 0 = false ∧
      (setTileColor testEnv (-1) 0 'r' (testState InterfaceType.DISCRETE)).1 =
        testState InterfaceType.DISCRETE ∧
      (setTileColor testEnv (-1) 0 'r' (testState InterfaceType.DISCRETE)).2 ≠ []) ∧
    (withinMaze testEnv.maze 0 0 = true ∧ CHAR_TO_COLOR 'x' = none ∧
      (setTileColor testEnv 0 0 'x' (testState InterfaceType.DISCRETE)).1 =
        testState InterfaceType.DISCRETE) ∧
    (CHAR_TO_DIRECTION 'x' = none ∧
      (declareWall testEnv 0 0 'x' true (testState InterfaceType.DISCRETE)).1 =
        testState InterfaceType.DISCRETE) := by
  refine ⟨⟨by decide, ?_, ?_⟩, ⟨by decide, by decide, ?_⟩, ⟨by decide, ?_⟩⟩
  · exact (((C9_annotation_validation testEnv (-1) 0 'r' true true 0
      (testState InterfaceType.DISCRETE)).1 (by decide)).1).1
  · exact (((C9_annotation_validation testEnv (-1) 0 'r' true true 0
      (testState InterfaceType.DISCRETE)).1 (by decide)).1).2
  · exact (((C9_annotation_validation testEnv 0 0 'x' true true 0
      (testState InterfaceType.DISCRETE)).2).1 (by decide) (by decide)).1
  · exact ((((C9_annotation_validation testEnv 0 0 'x' true true 0
      (testState InterfaceType.DISCRETE)).2).2 (by decide) (by decide)).1).1

/-- One crash step of `moveForward`: with a declared wall directly ahead,
the call completes, the crashed flag is set, and the pose is untouched;
the interface mode is also untouched. -/
theorem moveForward_crash_step (env : Env) (st : MState)
    (hmode : st.sim.interfaceType = InterfaceType.DISCRETE)
    (hwall : env.maze.isWall (getDiscretizedTranslation env.params st.mouse).1
      (getDiscretizedTranslation env.params st.mouse).2
      (getDiscretizedRotation st.mouse) = true) :
    ∃ st1, moveForward env st = Except.ok st1 ∧
      st1.sim.crashed = true ∧
      st1.sim.interfaceType = InterfaceType.DISCRETE ∧
      st1.mouse = st.mouse := by
  have hfst : (isWall env (getDiscretizedTranslation env.params st.mouse)
      (getDiscretizedRotation st.mouse) st).1 = true := by
    rw [isWall_fst]
    exact hwall
  refine ⟨setCrashed (isWall env (getDiscretizedTranslation env.params st.mouse)
    (getDiscretizedRotation st.mouse) st).2, ?_, ?_, ?_, ?_⟩
  · simp [moveForward, wallFront, ensureDiscrete_ok _ _ hmode, except_bind_ok, hfst]
  · exact setCrashed_crashed _
  · rw [setCrashed_interfaceType, isWall_sim_eq]
    exact hmode
  · rw [setCrashed_mouse_eq, isWall_mouse_eq]

/-- C3: `moveForward` into a declared wall sets the crashed flag and
returns without changing translation or rotation; a second `moveForward`
from the resulting state leaves the flag set and still does not move
(setting the flag is idempotent and `moveForward` never clears it). -/
theorem C3_crash_sticky (env : Env) (st : MState)
    (hmode : st.sim.interfaceType = InterfaceType.DISCRETE)
    (hwall : env.maze.isWall (getDiscretizedTranslation env.params st.mouse).1
      (getDiscretizedTranslation env.params st.mouse).2
      (getDiscretizedRotation st.mouse) = true) :
    ∃ st1, moveForward env st = Except.ok st1 ∧
      st1.sim.crashed = true ∧
      st1.mouse.currentTranslation = st.mouse.currentTranslation ∧
      st1.mouse.currentRotation = st.mouse.currentRotation ∧
      ∃ st2, moveForward env st1 = Except.ok st2 ∧
        st2.sim.crashed = true ∧
        st2.mouse.currentTranslation = st.mouse.currentTranslation ∧
        st2.mouse.currentRotation = st.mouse.currentRotation := by
  obtain ⟨st1, h1, hc1, hm1, hmouse1⟩ := moveForward_crash_step env st hmode hwall
  have hwall1 : env.maze.isWall (getDiscretizedTranslation env.params st1.mouse).1
      (getDiscretizedTranslation env.params st1.mouse).2
      (getDiscretizedRotation st1.mouse) = true := by
    rw [hmouse1]
    exact hwall
  obtain ⟨st2, h2, hc2, hm2, hmouse2⟩ := moveForward_crash_step env st1 hm1 hwall1
  exact ⟨st1, h1, hc1, by rw [hmouse1], by rw [hmouse1],
    st2, h2, hc2, by rw [hmouse2, hmouse1], by rw [hmouse2, hmouse1]⟩

/-- Witness for C3: the all-walls maze, mouse at the center of (0, 0)
facing NORTH. -/
theorem C3_crash_sticky_witness :
    (testState InterfaceType.DISCRETE).sim.interfaceType = InterfaceType.DISCRETE ∧
    testEnvWalls.maze.isWall
      (getDiscretizedTranslation testEnvWalls.params (testState InterfaceType.DISCRETE).mouse).1
      (getDiscretizedTranslation testEnvWalls.params (testState InterfaceType.DISCRETE).mouse).2
      (getDiscretizedRotation (testState InterfaceType.DISCRETE).mouse) = true ∧
    ∃ st1, moveForward testEnvWalls (testState InterfaceType.DISCRETE) = Except.ok st1 ∧
      st1.sim.crashed = true ∧
      st1.mouse.currentTranslation = (testState InterfaceType.DISCRETE).mouse.currentTranslation ∧
      st1.mouse.currentRotation = (testState InterfaceType.DISCRETE).mouse.currentRotation ∧
      ∃ st2, moveForward testEnvWalls st1 = Except.ok st2 ∧
        st2.sim.crashed = true ∧
        st2.mouse.currentTranslation = (testState InterfaceType.DISCRETE).mouse.currentTranslation ∧
        st2.mouse.currentRotation = (testState InterfaceType.DISCRETE).mouse.currentRotation := by
  refine ⟨by decide, by decide, ?_⟩
  exact C3_crash_sticky testEnvWalls (testState InterfaceType.DISCRETE) (by decide) (by decide)

theorem norm360_add_int_mul (a : ℚ) (k : ℤ) : norm360 (a + 360 * k) = norm360 a := by
  unfold norm360
  have h : (a + 360 * (k : ℚ)) / 360 = a / 360 + (k : ℚ) := by
    field_simp
    ring
  rw [h, Int.floor_add_int]
  push_cast
  ring

theorem norm360_norm360_add (a c : ℚ) : norm360 (norm360 a + c) = norm360 (a + c) := by
  have h : norm360 a + c = (a + c) + 360 * ((-⌊a / 360⌋ : ℤ) : ℚ) := by
    unfold norm360
    push_cast
    ring
  rw [h, norm360_add_int_mul]

theorem norm360_eq_self (a : ℚ) (h1 : 0 ≤ a) (h2 : a < 360) : norm360 a = a := by
  unfold norm360
  have hz : ⌊a / 360⌋ = 0 := by
    rw [Int.floor_eq_zero_iff, Set.mem_Ico]
    constructor
    · positivity
    · rw [div_lt_one (by norm_num : (0 : ℚ) < 360)]
      exact h2
  rw [hz]
  ring

theorem norm360_eq_of (a b : ℚ) (k : ℤ) (h : a = b + 360 * (k : ℚ))
    (h1 : 0 ≤ b) (h2 : b < 360) : norm360 a = b := by
  rw [h, norm360_add_int_mul, norm360_eq_self b h1 h2]

theorem getDiscretizedRotation_eq (m : Mouse) (b : ℚ) (hb : norm360 m.currentRotation = b) :
    getDiscretizedRotation m =
      (if b < 45 then Direction.NORTH
       else if b < 135 then Direction.WEST
       else if b < 225 then Direction.SOUTH
       else if b < 315 then Direction.EAST
       else Direction.NORTH) := by
  unfold getDiscretizedRotation
  rw [hb]

/-- C5: in DISCRETE mode, `turnAround` equals the sequential composition
of two `turnRight` calls (the spec-side reading `turnAroundSpec`), and the
completed call keeps the translation and subtracts 180 degrees from the
rotation, exactly what two right turns produce. -/
theorem C5_turnAround_two_rights (env : Env) (st : MState)
    (hmode : st.sim.interfaceType = InterfaceType.DISCRETE) :
    turnAround env st = turnAroundSpec env st ∧
    ∃ st2, turnAround env st = Except.ok st2 ∧
      st2.mouse.currentTranslation = st.mouse.currentTranslation ∧
      st2.mouse.currentRotation = st.mouse.currentRotation - 180 := by
  have hmode1 : (teleportZeroed st.mouse.currentTranslation
      (st.mouse.currentRotation - 90) st).sim.interfaceType = InterfaceType.DISCRETE := hmode
  have h1 : turnRight env st = Except.ok (teleportZeroed st.mouse.currentTranslation
      (st.mouse.currentRotation - 90) st) := by
    simp [turnRight, ensureDiscrete_ok _ _ hmode, except_bind_ok]
  constructor
  · simp [turnAround, turnAroundSpec, ensureDiscrete_ok _ _ hmode, except_bind_ok]
  · refine ⟨teleportZeroed st.mouse.currentTranslation
      (st.mouse.currentRotation - 90 - 90)
      (teleportZeroed st.mouse.currentTranslation (st.mouse.currentRotation - 90) st),
      ?_, rfl, ?_⟩
    · simp [turnAround, ensureDiscrete_ok _ _ hmode, except_bind_ok, h1,
        turnRight, ensureDiscrete_ok _ _ hmode1]
      rfl
    · show st.mouse.currentRotation - 90 - 90 = st.mouse.currentRotation - 180
      ring

/-- Witness for C5 at the concrete NORTH-facing discrete state. -/
theorem C5_turnAround_two_rights_witness :
    (testState InterfaceType.DISCRETE).sim.interfaceType = InterfaceType.DISCRETE ∧
    turnAround testEnv (testState InterfaceType.DISCRETE) =
      turnAroundSpec testEnv (testState InterfaceType.DISCRETE) ∧
    ∃ st2, turnAround testEnv (testState InterfaceType.DISCRETE) = Except.ok st2 ∧
      st2.mouse.currentTranslation = (testState InterfaceType.DISCRETE).mouse.currentTranslation ∧
      st2.mouse.currentRotation = (testState InterfaceType.DISCRETE).mouse.currentRotation - 180 := by
  refine ⟨by decide, ?_, ?_⟩
  · exact (C5_turnAround_two_rights testEnv (testState InterfaceType.DISCRETE) (by decide)).1
  · exact (C5_turnAround_two_rights testEnv (testState InterfaceType.DISCRETE) (by decide)).2

/-- C4 counterexample: from the discrete-mode pose with rotation 3 degrees
(discretized heading NORTH, but not the canonical angle), `turnRight`
teleports to rotation 3 - 90 = -87, which normalizes to 273: the new
discretized heading is EAST but 273 is not the canonical 270, so the
claim fails for this starting pose. -/
theorem C4_counterexample :
    getDiscretizedRotation stC4.mouse = Direction.NORTH ∧
    turnRight testEnv stC4 =
      Except.ok (teleportZeroed stC4.mouse.currentTranslation
        (stC4.mouse.currentRotation - 90) stC4) ∧
    norm360 (stC4.mouse.currentRotation - 90) = 273 ∧
    getDiscretizedRotation (teleportZeroed stC4.mouse.currentTranslation
      (stC4.mouse.currentRotation - 90) stC4).mouse = Direction.EAST ∧
    canonicalAngle Direction.EAST = 270 ∧
    norm360 (teleportZeroed stC4.mouse.currentTranslation
      (stC4.mouse.currentRotation - 90) stC4).mouse.currentRotation ≠
      canonicalAngle (directionRight (getDiscretizedRotation stC4.mouse)) := by
  have hrot : stC4.mouse.currentRotation = 3 := rfl
  have h3 : norm360 stC4.mouse.currentRotation = 3 := by
    rw [hrot]
    exact norm360_eq_of 3 3 0 (by norm_num) (by norm_num) (by norm_num)
  have h273 : norm360 (stC4.mouse.currentRotation - 90) = 273 := by
    rw [hrot]
    exact norm360_eq_of (3 - 90) 273 (-1) (by norm_num) (by norm_num) (by norm_num)
  have hdisc : getDiscretizedRotation stC4.mouse = Direction.NORTH := by
    rw [getDiscretizedRotation_eq stC4.mouse 3 h3]
    norm_num
  have hdisc2 : getDiscretizedRotation (teleportZeroed stC4.mouse.currentTranslation
      (stC4.mouse.currentRotation - 90) stC4).mouse = Direction.EAST := by
    rw [getDiscretizedRotation_eq _ 273 h273]
    norm_num
  have hturn : turnRight testEnv stC4 =
      Except.ok (teleportZeroed stC4.mouse.currentTranslation
        (stC4.mouse.currentRotation - 90) stC4) := by
    simp [turnRight, except_bind_ok,
      ensureDiscrete_ok _ _ (by decide : stC4.sim.interfaceType = InterfaceType.DISCRETE)]
  refine ⟨hdisc, hturn, h273, hdisc2, rfl, ?_⟩
  rw [hdisc]
  show norm360 (stC4.mouse.currentRotation - 90) ≠ canonicalAngle (directionRight Direction.NORTH)
  rw [h273]
  norm_num [canonicalAngle, directionRight]

/-- C4 amended: `turnRight` / `turnLeft` complete by teleporting to the
unchanged translation at the pre-turn rotation minus / plus 90 degrees;
this is the exact canonical destination angle of the new cardinal heading
precisely when the pre-turn rotation is, modulo 360, the canonical angle
of a cardinal heading. -/
theorem C4_turn_teleport (env : Env) (st : MState)
    (hmode : st.sim.interfaceType = InterfaceType.DISCRETE) :
    (∃ st1, turnRight env st = Except.ok st1 ∧
      st1.mouse.currentTranslation = st.mouse.currentTranslation ∧
      st1.mouse.currentRotation = st.mouse.currentRotation - 90) ∧
    (∃ st1, turnLeft env st = Except.ok st1 ∧
      st1.mouse.currentTranslation = st.mouse.currentTranslation ∧
      st1.mouse.currentRotation = st.mouse.currentRotation + 90) ∧
    (∀ d : Direction, norm360 st.mouse.currentRotation = canonicalAngle d →
      norm360 (st.mouse.currentRotation - 90) = canonicalAngle (directionRight d) ∧
      norm360 (st.mouse.currentRotation + 90) = canonicalAngle (directionLeft d)) := by
  refine ⟨⟨teleportZeroed st.mouse.currentTranslation (st.mouse.currentRotation - 90) st,
      ?_, rfl, rfl⟩,
    ⟨teleportZeroed st.mouse.currentTranslation (st.mouse.currentRotation + 90) st,
      ?_, rfl, rfl⟩, ?_⟩
  · simp [turnRight, ensureDiscrete_ok _ _ hmode, except_bind_ok]
  · simp [turnLeft, ensureDiscrete_ok _ _ hmode, except_bind_ok]
  · intro d hd
    have h1 : norm360 (st.mouse.currentRotation - 90) = norm360 (canonicalAngle d - 90) := by
      rw [sub_eq_add_neg, ← norm360_norm360_add, hd, ← sub_eq_add_neg]
    have h2 : norm360 (st.mouse.currentRotation + 90) = norm360 (canonicalAngle d + 90) := by
      rw [← norm360_norm360_add, hd]
    rw [h1, h2]
    cases d
    · constructor
      · show norm360 ((0 : ℚ) - 90) = (270 : ℚ)
        exact norm360_eq_of _ 270 (-1) (by norm_num) (by norm_num) (by norm_num)
      · show norm360 ((0 : ℚ) + 90) = (90 : ℚ)
        exact norm360_eq_of _ 90 0 (by norm_num) (by norm_num) (by norm_num)
    · constructor
      · show norm360 ((270 : ℚ) - 90) = (180 : ℚ)
        exact norm360_eq_of _ 180 0 (by norm_num) (by norm_num) (by norm_num)
      · show norm360 ((270 : ℚ) + 90) = (0 : ℚ)
        exact norm360_eq_of _ 0 1 (by norm_num) (by norm_num) (by norm_num)
    · constructor
      · show norm360 ((180 : ℚ) - 90) = (90 : ℚ)
        exact norm360_eq_of _ 90 0 (by norm_num) (by norm_num) (by norm_num)
      · show norm360 ((180 : ℚ) + 90) = (270 : ℚ)
        exact norm360_eq_of _ 270 0 (by norm_num) (by norm_num) (by norm_num)
    · constructor
      · show norm360 ((90 : ℚ) - 90) = (0 : ℚ)
        exact norm360_eq_of _ 0 0 (by norm_num) (by norm_num) (by norm_num)
      · show norm360 ((90 : ℚ) + 90) = (180 : ℚ)
        exact norm360_eq_of _ 180 0 (by norm_num) (by norm_num) (by norm_num)

/-- Witness for the amended C4 at the canonical NORTH-facing state. -/
theorem C4_turn_teleport_witness :
    (testState InterfaceType.DISCRETE).sim.interfaceType = InterfaceType.DISCRETE ∧
    (∃ st1, turnRight testEnv (testState InterfaceType.DISCRETE) = Except.ok st1 ∧
      st1.mouse.currentTranslation = (testState InterfaceType.DISCRETE).mouse.currentTranslation ∧
      st1.mouse.currentRotation = (testState InterfaceType.DISCRETE).mouse.currentRotation - 90) ∧
    norm360 (testState InterfaceType.DISCRETE).mouse.currentRotation =
      canonicalAngle Direction.NORTH ∧
    norm360 ((testState InterfaceType.DISCRETE).mouse.currentRotation - 90) =
      canonicalAngle (directionRight Direction.NORTH) := by
  have h0 : norm360 (testState InterfaceType.DISCRETE).mouse.currentRotation =
      canonicalAngle Direction.NORTH := by
    show norm360 (0 : ℚ) = (0 : ℚ)
    exact norm360_eq_of _ 0 0 (by norm_num) (by norm_num) (by norm_num)
  refine ⟨by decide, ?_, h0, ?_⟩
  · exact (C4_turn_teleport testEnv (testState InterfaceType.DISCRETE) (by decide)).1
  · exact ((C4_turn_teleport testEnv (testState InterfaceType.DISCRETE) (by decide)).2.2
      Direction.NORTH h0).1

theorem floor_tile (tl a : ℚ) (k : ℤ) (h0 : 0 < tl) (ha : 0 ≤ a) (ha2 : a < tl) :
    ⌊(tl * (k : ℚ) + a) / tl⌋ = k := by
  have hne : tl ≠ 0 := ne_of_gt h0
  have h : (tl * (k : ℚ) + a) / tl = a / tl + (k : ℚ) := by
    field_simp
    ring
  rw [h, Int.floor_add_int]
  have hz : ⌊a / tl⌋ = 0 := by
    rw [Int.floor_eq_zero_iff, Set.mem_Ico]
    exact ⟨div_nonneg ha h0.le, (div_lt_one h0).mpr ha2⟩
  rw [hz]
  exact zero_add k

/-- One completed non-crashing step of `moveForward`: with no wall ahead,
the call completes and the final pose is exactly the computed destination;
the process-wide state is untouched. -/
theorem moveForward_ok_step (env : Env) (st : MState)
    (hmode : st.sim.interfaceType = InterfaceType.DISCRETE)
    (hwall : env.maze.isWall (getDiscretizedTranslation env.params st.mouse).1
      (getDiscretizedTranslation env.params st.mouse).2
      (getDiscretizedRotation st.mouse) = false) :
    ∃ st1, moveForward env st = Except.ok st1 ∧
      st1.mouse.currentTranslation = (moveForwardDest env st.mouse).1 ∧
      st1.mouse.currentRotation = (moveForwardDest env st.mouse).2 ∧
      st1.sim = st.sim := by
  have hfst : (isWall env (getDiscretizedTranslation env.params st.mouse)
      (getDiscretizedRotation st.mouse) st).1 = false := by
    rw [isWall_fst]
    exact hwall
  have hmouse := isWall_mouse_eq env (getDiscretizedTranslation env.params st.mouse)
    (getDiscretizedRotation st.mouse) st
  refine ⟨teleportZeroed
      (moveForwardDest env (isWall env (getDiscretizedTranslation env.params st.mouse)
        (getDiscretizedRotation st.mouse) st).2.mouse).1
      (moveForwardDest env (isWall env (getDiscretizedTranslation env.params st.mouse)
        (getDiscretizedRotation st.mouse) st).2.mouse).2
      (isWall env (getDiscretizedTranslation env.params st.mouse)
        (getDiscretizedRotation st.mouse) st).2, ?_, ?_, ?_, ?_⟩
  · simp [moveForward, wallFront, ensureDiscrete_ok _ _ hmode, except_bind_ok, hfst]
  · show (moveForwardDest env (isWall env (getDiscretizedTranslation env.params st.mouse)
        (getDiscretizedRotation st.mouse) st).2.mouse).1 = (moveForwardDest env st.mouse).1
    rw [hmouse]
  · show (moveForwardDest env (isWall env (getDiscretizedTranslation env.params st.mouse)
        (getDiscretizedRotation st.mouse) st).2.mouse).2 = (moveForwardDest env st.mouse).2
    rw [hmouse]
  · show (isWall env (getDiscretizedTranslation env.params st.mouse)
        (getDiscretizedRotation st.mouse) st).2.sim = st.sim
    exact isWall_sim_eq env _ _ st

/-- C2: from any in-bounds cell with the initial translation inside tile
(0, 0), if no wall is ahead, a completed `moveForward` lands exactly on
the cell one tile ahead along the starting discretized heading, and the
discretized rotation equals the pre-move heading — the teleport makes the
round-trip exact. -/
theorem C2_moveForward_roundtrip (env : Env) (st : MState)
    (hmode : st.sim.interfaceType = InterfaceType.DISCRETE)
    (htl : 0 < tileLength env.params)
    (hx0 : 0 ≤ st.mouse.initialTranslation.1)
    (hx1 : st.mouse.initialTranslation.1 < tileLength env.params)
    (hy0 : 0 ≤ st.mouse.initialTranslation.2)
    (hy1 : st.mouse.initialTranslation.2 < tileLength env.params)
    (hbounds : withinMaze env.maze (getDiscretizedTranslation env.params st.mouse).1
      (getDiscretizedTranslation env.params st.mouse).2 = true)
    (hwall : env.maze.isWall (getDiscretizedTranslation env.params st.mouse).1
      (getDiscretizedTranslation env.params st.mouse).2
      (getDiscretizedRotation st.mouse) = false) :
    ∃ st1, moveForward env st = Except.ok st1 ∧
      getDiscretizedTranslation env.params st1.mouse =
        ((getDiscretizedTranslation env.params st.mouse).1 +
            (dirOffset (getDiscretizedRotation st.mouse)).1,
         (getDiscretizedTranslation env.params st.mouse).2 +
            (dirOffset (getDiscretizedRotation st.mouse)).2) ∧
      getDiscretizedRotation st1.mouse = getDiscretizedRotation st.mouse := by
  obtain ⟨st1, h1, ht, hr, _⟩ := moveForward_ok_step env st hmode hwall
  refine ⟨st1, h1, ?_⟩
  cases hd : getDiscretizedRotation st.mouse
  · -- NORTH
    have hdest : moveForwardDest env st.mouse =
        ((tileLength env.params * ((getDiscretizedTranslation env.params st.mouse).1 : ℚ) +
            st.mouse.initialTranslation.1,
          tileLength env.params * ((getDiscretizedTranslation env.params st.mouse).2 : ℚ) +
            st.mouse.initialTranslation.2 + tileLength env.params), 0) := by
      simp [moveForwardDest, hd]
    have hx : ⌊(tileLength env.params * ((getDiscretizedTranslation env.params st.mouse).1 : ℚ) +
        st.mouse.initialTranslation.1) / tileLength env.params⌋ =
        (getDiscretizedTranslation env.params st.mouse).1 :=
      floor_tile _ _ _ htl hx0 hx1
    have hy : ⌊(tileLength env.params * ((getDiscretizedTranslation env.params st.mouse).2 : ℚ) +
        st.mouse.initialTranslation.2 + tileLength env.params) / tileLength env.params⌋ =
        (getDiscretizedTranslation env.params st.mouse).2 + 1 := by
      rw [show tileLength env.params * ((getDiscretizedTranslation env.params st.mouse).2 : ℚ) +
          st.mouse.initialTranslation.2 + tileLength env.params =
          tileLength env.params * (((getDiscretizedTranslation env.params st.mouse).2 + 1 : ℤ) : ℚ)
            + st.mouse.initialTranslation.2 by push_cast; ring]
      exact floor_tile _ _ _ htl hy0 hy1
    have h0 : st1.mouse.currentRotation = 0 := by rw [hr, hdest]
    have hrot : norm360 st1.mouse.currentRotation = 0 := by
      rw [h0]
      exact norm360_eq_of _ 0 0 (by norm_num) (by norm_num) (by norm_num)
    constructor
    · simp only [getDiscretizedTranslation] at hx hy hdest ⊢
      rw [ht, hdest]
      simp only [dirOffset, Prod.mk.injEq]
      omega
    · rw [getDiscretizedRotation_eq st1.mouse 0 hrot]
      norm_num
  · -- EAST
    have hdest : moveForwardDest env st.mouse =
        ((tileLength env.params * ((getDiscretizedTranslation env.params st.mouse).1 : ℚ) +
            st.mouse.initialTranslation.1 + tileLength env.params,
          tileLength env.params * ((getDiscretizedTranslation env.params st.mouse).2 : ℚ) +
            st.mouse.initialTranslation.2), 270) := by
      simp [moveForwardDest, hd]
    have hx : ⌊(tileLength env.params * ((getDiscretizedTranslation env.params st.mouse).1 : ℚ) +
        st.mouse.initialTranslation.1 + tileLength env.params) / tileLength env.params⌋ =
        (getDiscretizedTranslation env.params st.mouse).1 + 1 := by
      rw [show tileLength env.params * ((getDiscretizedTranslation env.params st.mouse).1 : ℚ) +
          st.mouse.initialTranslation.1 + tileLength env.params =
          tileLength env.params * (((getDiscretizedTranslation env.params st.mouse).1 + 1 : ℤ) : ℚ)
            + st.mouse.initialTranslation.1 by push_cast; ring]
      exact floor_tile _ _ _ htl hx0 hx1
    have hy : ⌊(tileLength env.params * ((getDiscretizedTranslation env.params st.mouse).2 : ℚ) +
        st.mouse.initialTranslation.2) / tileLength env.params⌋ =
        (getDiscretizedTranslation env.params st.mouse).2 :=
      floor_tile _ _ _ htl hy0 hy1
    have h0 : st1.mouse.currentRotation = 270 := by rw [hr, hdest]
    have hrot : norm360 st1.mouse.currentRotation = 270 := by
      rw [h0]
      exact norm360_eq_of _ 270 0 (by norm_num) (by norm_num) (by norm_num)
    constructor
    · simp only [getDiscretizedTranslation] at hx hy hdest ⊢
      rw [ht, hdest]
      simp only [dirOffset, Prod.mk.injEq]
      omega
    · rw [getDiscretizedRotation_eq st1.mouse 270 hrot]
      norm_num
  · -- SOUTH
    have hdest : moveForwardDest env st.mouse =
        ((tileLength env.params * ((getDiscretizedTranslation env.params st.mouse).1 : ℚ) +
            st.mouse.initialTranslation.1,
          tileLength env.params * ((getDiscretizedTranslation env.params st.mouse).2 : ℚ) +
            st.mouse.initialTranslation.2 - tileLength env.params), 180) := by
      simp [moveForwardDest, hd]
    have hx : ⌊(tileLength env.params * ((getDiscretizedTranslation env.params st.mouse).1 : ℚ) +
        st.mouse.initialTranslation.1) / tileLength env.params⌋ =
        (getDiscretizedTranslation env.params st.mouse).1 :=
      floor_tile _ _ _ htl hx0 hx1
    have hy : ⌊(tileLength env.params * ((getDiscretizedTranslation env.params st.mouse).2 : ℚ) +
        st.mouse.initialTranslation.2 - tileLength env.params) / tileLength env.params⌋ =
        (getDiscretizedTranslation env.params st.mouse).2 - 1 := by
      rw [show tileLength env.params * ((getDiscretizedTranslation env.params st.mouse).2 : ℚ) +
          st.mouse.initialTranslation.2 - tileLength env.params =
          tileLength env.params * (((getDiscretizedTranslation env.params st.mouse).2 - 1 : ℤ) : ℚ)
            + st.mouse.initialTranslation.2 by push_cast; ring]
      exact floor_tile _ _ _ htl hy0 hy1
    have h0 : st1.mouse.currentRotation = 180 := by rw [hr, hdest]
    have hrot : norm360 st1.mouse.currentRotation = 180 := by
      rw [h0]
      exact norm360_eq_of _ 180 0 (by norm_num) (by norm_num) (by norm_num)
    constructor
    · simp only [getDiscretizedTranslation] at hx hy hdest ⊢
      rw [ht, hdest]
      simp only [dirOffset, Prod.mk.injEq]
      omega
    · rw [getDiscretizedRotation_eq st1.mouse 180 hrot]
      norm_num
  · -- WEST
    have hdest : moveForwardDest env st.mouse =
        ((tileLength env.params * ((getDiscretizedTranslation env.params st.mouse).1 : ℚ) +
            st.mouse.initialTranslation.1 - tileLength env.params,
          tileLength env.params * ((getDiscretizedTranslation env.params st.mouse).2 : ℚ) +
            st.mouse.initialTranslation.2), 90) := by
      simp [moveForwardDest, hd]
    have hx : ⌊(tileLength env.params * ((getDiscretizedTranslation env.params st.mouse).1 : ℚ) +
        st.mouse.initialTranslation.1 - tileLength env.params) / tileLength env.params⌋ =
        (getDiscretizedTranslation env.params st.mouse).1 - 1 := by
      rw [show tileLength env.params * ((getDiscretizedTranslation env.params st.mouse).1 : ℚ) +
          st.mouse.initialTranslation.1 - tileLength env.params =
          tileLength env.params * (((getDiscretizedTranslation env.params st.mouse).1 - 1 : ℤ) : ℚ)
            + st.mouse.initialTranslation.1 by push_cast; ring]
      exact floor_tile _ _ _ htl hx0 hx1
    have hy : ⌊(tileLength env.params * ((getDiscretizedTranslation env.params st.mouse).2 : ℚ) +
        st.mouse.initialTranslation.2) / tileLength env.params⌋ =
        (getDiscretizedTranslation env.params st.mouse).2 :=
      floor_tile _ _ _ htl hy0 hy1
    have h0 : st1.mouse.currentRotation = 90 := by rw [hr, hdest]
    have hrot : norm360 st1.mouse.currentRotation = 90 := by
      rw [h0]
      exact norm360_eq_of _ 90 0 (by norm_num) (by norm_num) (by norm_num)
    constructor
    · simp only [getDiscretizedTranslation] at hx hy hdest ⊢
      rw [ht, hdest]
      simp only [dirOffset, Prod.mk.injEq]
      omega
    · rw [getDiscretizedRotation_eq st1.mouse 90 hrot]
      norm_num

/-- Witness for C2: unit tile pitch, mouse at the center of cell (0, 0)
facing NORTH, no walls; `moveForward` lands discretized on (0, 1) facing
NORTH. -/
theorem C2_moveForward_roundtrip_witness :
    (testState InterfaceType.DISCRETE).sim.interfaceType = InterfaceType.DISCRETE ∧
    0 < tileLength testEnv.params ∧
    withinMaze testEnv.maze
      (getDiscretizedTranslation testEnv.params (testState InterfaceType.DISCRETE).mouse).1
      (getDiscretizedTranslation testEnv.params (testState InterfaceType.DISCRETE).mouse).2 = true ∧
    testEnv.maze.isWall
      (getDiscretizedTranslation testEnv.params (testState InterfaceType.DISCRETE).mouse).1
      (getDiscretizedTranslation testEnv.params (testState InterfaceType.DISCRETE).mouse).2
      (getDiscretizedRotation (testState InterfaceType.DISCRETE).mouse) = false ∧
    ∃ st1, moveForward testEnv (testState InterfaceType.DISCRETE) = Except.ok st1 ∧
      getDiscretizedTranslation testEnv.params st1.mouse =
        ((getDiscretizedTranslation testEnv.params (testState InterfaceType.DISCRETE).mouse).1 +
            (dirOffset (getDiscretizedRotation (testState InterfaceType.DISCRETE).mouse)).1,
         (getDiscretizedTranslation testEnv.params (testState InterfaceType.DISCRETE).mouse).2 +
            (dirOffset (getDiscretizedRotation (testState InterfaceType.DISCRETE).mouse)).2) ∧
      getDiscretizedRotation st1.mouse =
        getDiscretizedRotation (testState InterfaceType.DISCRETE).mouse := by
  have htl : (0 : ℚ) < tileLength testEnv.params := by
    norm_num [tileLength, testEnv, testParams]
  have hx0 : (0 : ℚ) ≤ (testState InterfaceType.DISCRETE).mouse.initialTranslation.1 := by
    show (0 : ℚ) ≤ 1 / 2
    norm_num
  have hx1 : (testState InterfaceType.DISCRETE).mouse.initialTranslation.1 <
      tileLength testEnv.params := by
    show (1 : ℚ) / 2 < tileLength testEnv.params
    norm_num [tileLength, testEnv, testParams]
  have hy0 : (0 : ℚ) ≤ (testState InterfaceType.DISCRETE).mouse.initialTranslation.2 := by
    show (0 : ℚ) ≤ 1 / 2
    norm_num
  have hy1 : (testState InterfaceType.DISCRETE).mouse.initialTranslation.2 <
      tileLength testEnv.params := by
    show (1 : ℚ) / 2 < tileLength testEnv.params
    norm_num [tileLength, testEnv, testParams]
  have h12 : ⌊(1 : ℚ) / 2⌋ = 0 := by
    rw [Int.floor_eq_zero_iff, Set.mem_Ico]
    norm_num
  have htl1 : tileLength testEnv.params = 1 := by
    norm_num [tileLength, testEnv, testParams]
  have hd : getDiscretizedTranslation testEnv.params
      (testState InterfaceType.DISCRETE).mouse = (0, 0) := by
    simp [getDiscretizedTranslation, testState, testMouse, htl1, h12]
    norm_num
  have hbounds : withinMaze testEnv.maze
      (getDiscretizedTranslation testEnv.params (testState InterfaceType.DISCRETE).mouse).1
      (getDiscretizedTranslation testEnv.params (testState InterfaceType.DISCRETE).mouse).2 =
      true := by
    rw [hd]
    decide
  have hwall : testEnv.maze.isWall
      (getDiscretizedTranslation testEnv.params (testState InterfaceType.DISCRETE).mouse).1
      (getDiscretizedTranslation testEnv.params (testState InterfaceType.DISCRETE).mouse).2
      (getDiscretizedRotation (testState InterfaceType.DISCRETE).mouse) = false := by
    decide
  exact ⟨rfl, htl, hbounds, hwall,
    C2_moveForward_roundtrip testEnv (testState InterfaceType.DISCRETE) rfl htl
      hx0 hx1 hy0 hy1 hbounds hwall⟩

/-- C6: for an in-bounds cell, a valid direction character and the
both-wall-halves flag enabled, `declareWall` / `undeclareWall` apply the
identical declaration to the positionally opposing tile and direction
exactly when that neighbor exists within the maze (`hasOpposingWall` is
equivalent to the neighbor being in bounds), and touch nothing but the
addressed half when it does not. -/
theorem C6_both_wall_halves (env : Env) (x y : Int) (c : Char) (d : Direction) (b : Bool)
    (st : MState)
    (hin : withinMaze env.maze x y = true)
    (hc : CHAR_TO_DIRECTION c = some d)
    (hboth : env.params.declareBothWallHalves = true) :
    (hasOpposingWall env.maze x y d = true ↔
      withinMaze env.maze (getOpposingWall x y d).1.1 (getOpposingWall x y d).1.2 = true) ∧
    (hasOpposingWall env.maze x y d = true →
      (declareWall env x y c b st).1.ann.declaredWall x y d = some b ∧
      (declareWall env x y c b st).1.ann.declaredWall
        (getOpposingWall x y d).1.1 (getOpposingWall x y d).1.2 (getOpposingWall x y d).2 =
        some b ∧
      (undeclareWall env x y c st).1.ann.declaredWall x y d = none ∧
      (undeclareWall env x y c st).1.ann.declaredWall
        (getOpposingWall x y d).1.1 (getOpposingWall x y d).1.2 (getOpposingWall x y d).2 =
        none) ∧
    (hasOpposingWall env.maze x y d = false →
      (declareWall env x y c b st).1.ann.declaredWall x y d = some b ∧
      (undeclareWall env x y c st).1.ann.declaredWall x y d = none ∧
      ∀ x2 y2 d2, ¬(x2 = x ∧ y2 = y ∧ d2 = d) →
        (declareWall env x y c b st).1.ann.declaredWall x2 y2 d2 =
          st.ann.declaredWall x2 y2 d2 ∧
        (undeclareWall env x y c st).1.ann.declaredWall x2 y2 d2 =
          st.ann.declaredWall x2 y2 d2) := by
  have hin' : 0 ≤ x ∧ x < env.maze.width ∧ 0 ≤ y ∧ y < env.maze.height := by
    simpa [withinMaze] using hin
  have hop : (getOpposingWall x y d).2 ≠ d := by
    cases d <;> simp [getOpposingWall]
  have hkey : ¬((getOpposingWall x y d).1.1 = x ∧ (getOpposingWall x y d).1.2 = y ∧
      (getOpposingWall x y d).2 = d) := by
    intro hcon
    exact hop hcon.2.2
  refine ⟨?_, ?_, ?_⟩
  · cases d <;>
      simp [hasOpposingWall, getOpposingWall, withinMaze] <;>
      omega
  · intro hopp
    have hdecl : (declareWall env x y c b st).1 =
        setDeclaredWall (getOpposingWall x y d).1.1 (getOpposingWall x y d).1.2
          (getOpposingWall x y d).2 (some b) (setDeclaredWall x y d (some b) st) := by
      simp [declareWall, hin, hc, hboth, hopp]
    have hundecl : (undeclareWall env x y c st).1 =
        setDeclaredWall (getOpposingWall x y d).1.1 (getOpposingWall x y d).1.2
          (getOpposingWall x y d).2 none (setDeclaredWall x y d none st) := by
      simp [undeclareWall, hin, hc, hboth, hopp]
    refine ⟨?_, ?_, ?_, ?_⟩
    · rw [hdecl]
      simp [setDeclaredWall, hkey, hop]
    · rw [hdecl]
      simp [setDeclaredWall]
    · rw [hundecl]
      simp [setDeclaredWall, hkey, hop]
    · rw [hundecl]
      simp [setDeclaredWall]
  · intro hopp
    have hdecl : (declareWall env x y c b st).1 = setDeclaredWall x y d (some b) st := by
      simp [declareWall, hin, hc, hopp]
    have hundecl : (undeclareWall env x y c st).1 = setDeclaredWall x y d none st := by
      simp [undeclareWall, hin, hc, hopp]
    refine ⟨?_, ?_, ?_⟩
    · rw [hdecl]
      simp [setDeclaredWall]
    · rw [hundecl]
      simp [setDeclaredWall]
    · intro x2 y2 d2 hne
      rw [hdecl, hundecl]
      constructor <;> simp [setDeclaredWall, hne]

/-- Witness for C6 at cell (0, 0): direction n has its opposing half at
(0, 1) SOUTH inside the 3 by 3 maze; direction s has none. -/
theorem C6_both_wall_halves_witness :
    (withinMaze testEnv.maze 0 0 = true ∧ CHAR_TO_DIRECTION 'n' = some Direction.NORTH ∧
      testEnv.params.declareBothWallHalves = true ∧
      hasOpposingWall testEnv.maze 0 0 Direction.NORTH = true ∧
      (declareWall testEnv 0 0 'n' true (testState InterfaceType.DISCRETE)).1.ann.declaredWall
        0 1 Direction.SOUTH = some true) ∧
    (hasOpposingWall testEnv.maze 0 0 Direction.SOUTH = false ∧
      (declareWall testEnv 0 0 's' true (testState InterfaceType.DISCRETE)).1.ann.declaredWall
        0 0 Direction.SOUTH = some true ∧
      (declareWall testEnv 0 0 's' true (testState InterfaceType.DISCRETE)).1.ann.declaredWall
        0 (-1) Direction.NORTH = (testState InterfaceType.DISCRETE).ann.declaredWall
          0 (-1) Direction.NORTH) := by
  constructor
  · refine ⟨by decide, by decide, by decide, by decide, ?_⟩
    have h := ((C6_both_wall_halves testEnv 0 0 'n' Direction.NORTH true
      (testState InterfaceType.DISCRETE) (by decide) (by decide) (by decide)).2.1 (by decide)).2.1
    exact h
  · refine ⟨by decide, ?_, ?_⟩
    · exact ((C6_both_wall_halves testEnv 0 0 's' Direction.SOUTH true
        (testState InterfaceType.DISCRETE) (by decide) (by decide) (by decide)).2.2
        (by decide)).1
    · exact (((C6_both_wall_halves testEnv 0 0 's' Direction.SOUTH true
        (testState InterfaceType.DISCRETE) (by decide) (by decide) (by decide)).2.2
        (by decide)).2.2 0 (-1) Direction.NORTH (by decide)).1

theorem motionLoop_events (fuel : Nat) (obs : Nat → Pose) (cond : Pose → Bool) (l r : ℚ)
    (tr : List Event) (p : Pose)
    (h : motionLoop fuel obs cond l r = some (tr, p)) :
    (∀ e ∈ tr, e.isTeleport = false) ∧ cond p = false := by
  induction fuel generalizing obs tr p with
  | zero =>
    unfold motionLoop at h
    by_cases hc : cond (obs 0) = true
    · rw [if_pos hc] at h
      simp at h
    · rw [if_neg hc] at h
      rw [Option.some.injEq, Prod.mk.injEq] at h
      obtain ⟨h1, h2⟩ := h
      subst h1
      subst h2
      refine ⟨?_, by simpa using hc⟩
      intro e he
      cases he
  | succ n ih =>
    unfold motionLoop at h
    by_cases hc : cond (obs 0) = true
    · rw [if_pos hc] at h
      cases hm : motionLoop n (fun i => obs (i + 1)) cond l r with
      | none =>
        rw [hm] at h
        simp at h
      | some q =>
        obtain ⟨qtr, qp⟩ := q
        rw [hm] at h
        rw [Option.some.injEq, Prod.mk.injEq] at h
        obtain ⟨h1, h2⟩ := h
        subst h1
        subst h2
        obtain ⟨hnt, hcond⟩ := ih (fun i => obs (i + 1)) qtr qp hm
        refine ⟨?_, hcond⟩
        intro e he
        cases he with
        | head => rfl
        | tail _ he1 =>
          cases he1 with
          | head => rfl
          | tail _ he2 => exact hnt e he2
    · rw [if_neg hc] at h
      rw [Option.some.injEq, Prod.mk.injEq] at h
      obtain ⟨h1, h2⟩ := h
      subst h1
      subst h2
      refine ⟨?_, by simpa using hc⟩
      intro e he
      cases he

theorem runMotion_ordering (fuel : Nat) (obs : Nat → Pose) (cond : Pose → Bool) (l r : ℚ)
    (destT : ℚ × ℚ) (destR : ℚ) (tr : List Event) (p : Pose)
    (h : runMotion fuel obs cond l r destT destR = some (tr, p)) :
    cond p = false ∧
    ∀ i a b c, tr[i]? = some (Event.teleport a b c) →
      lastSpeeds (tr.take i) = some (0, 0) := by
  unfold runMotion at h
  cases hm : motionLoop fuel obs cond l r with
  | none =>
    rw [hm] at h
    simp at h
  | some q =>
    obtain ⟨ltr, qp⟩ := q
    rw [hm] at h
    rw [Option.some.injEq, Prod.mk.injEq] at h
    obtain ⟨h1, h2⟩ := h
    subst h2
    obtain ⟨hnt, hcond⟩ := motionLoop_events fuel obs cond l r ltr qp hm
    refine ⟨hcond, ?_⟩
    intro i a b c hi
    subst h1
    rcases lt_or_ge i ltr.length with hlt | hge
    · rw [List.getElem?_append_left hlt] at hi
      have hmem : Event.teleport a b c ∈ ltr := List.getElem?_mem hi
      have hfalse := hnt _ hmem
      simp [Event.isTeleport] at hfalse
    · rw [List.getElem?_append_right hge] at hi
      cases hj : i - ltr.length with
      | zero =>
        rw [hj] at hi
        simp at hi
      | succ j1 =>
        cases j1 with
        | zero =>
          have hieq : i = ltr.length + 1 := by omega
          rw [hieq, show ltr ++ [Event.setWheelSpeeds 0 0,
              Event.teleport destT.1 destT.2 destR] =
              (ltr ++ [Event.setWheelSpeeds 0 0]) ++ [Event.teleport destT.1 destT.2 destR]
              by simp,
            List.take_left' (by simp : (ltr ++ [Event.setWheelSpeeds 0 0]).length =
              ltr.length + 1)]
          simp [lastSpeeds, List.foldl_append]
        | succ j2 =>
          rw [hj] at hi
          simp at hi

/-- C7: in the event trace of each motion loop body (`moveForward`,
`turnRight`, `turnLeft`), a teleport command is only ever issued with the
most recent wheel-speed command being (0, 0), and only after the loop has
exited with its termination predicate falsified at the observed pose;
no teleport happens while the commanded wheel speeds are nonzero. -/
theorem C7_teleport_after_zero :
    (∀ env st fuel obs tr p,
      moveForwardBodyTrace env st fuel obs = some (tr, p) →
      ∀ i a b c, tr[i]? = some (Event.teleport a b c) →
        lastSpeeds (tr.take i) = some (0, 0) ∧ moveForwardCond env st.mouse p = false) ∧
    (∀ st fuel obs tr p,
      turnRightBodyTrace st fuel obs = some (tr, p) →
      ∀ i a b c, tr[i]? = some (Event.teleport a b c) →
        lastSpeeds (tr.take i) = some (0, 0) ∧ turnRightCond st.mouse p = false) ∧
    (∀ st fuel obs tr p,
      turnLeftBodyTrace st fuel obs = some (tr, p) →
      ∀ i a b c, tr[i]? = some (Event.teleport a b c) →
        lastSpeeds (tr.take i) = some (0, 0) ∧ turnLeftCond st.mouse p = false) := by
  refine ⟨?_, ?_, ?_⟩
  · intro env st fuel obs tr p h i a b c hi
    simp only [moveForwardBodyTrace] at h
    by_cases hw : (isWall env (getDiscretizedTranslation env.params st.mouse)
        (getDiscretizedRotation st.mouse) st).1 = true
    · rw [if_pos hw] at h
      rw [Option.some.injEq, Prod.mk.injEq] at h
      obtain ⟨h1, h2⟩ := h
      subst h1
      simp at hi
    · rw [if_neg hw] at h
      have hord := runMotion_ordering _ _ _ _ _ _ _ _ _ h
      exact ⟨hord.2 i a b c hi, hord.1⟩
  · intro st fuel obs tr p h i a b c hi
    unfold turnRightBodyTrace at h
    have hord := runMotion_ordering _ _ _ _ _ _ _ _ _ h
    exact ⟨hord.2 i a b c hi, hord.1⟩
  · intro st fuel obs tr p h i a b c hi
    unfold turnLeftBodyTrace at h
    have hord := runMotion_ordering _ _ _ _ _ _ _ _ _ h
    exact ⟨hord.2 i a b c hi, hord.1⟩

/-- Witness for C7: concrete one-check loops for the three motion bodies,
each exiting immediately with the observed pose failing the predicate; in
every produced trace the teleport at index 1 follows the zeroing of the
wheel speeds. -/
theorem C7_teleport_after_zero_witness :
    (∃ tr p, moveForwardBodyTrace testEnv (testState InterfaceType.DISCRETE) 1
        (fun _ => Pose.mk (1 / 2) 2 0) = some (tr, p) ∧
      tr[1]? = some (Event.teleport (1 / 2) (3 / 2) 0) ∧
      lastSpeeds (tr.take 1) = some (0, 0) ∧
      moveForwardCond testEnv (testState InterfaceType.DISCRETE).mouse p = false) ∧
    (∃ tr p, turnRightBodyTrace (testState InterfaceType.DISCRETE) 1
        (fun _ => Pose.mk (1 / 2) (1 / 2) 200) = some (tr, p) ∧
      lastSpeeds (tr.take 1) = some (0, 0) ∧
      turnRightCond (testState InterfaceType.DISCRETE).mouse p = false) ∧
    (∃ tr p, turnLeftBodyTrace (testState InterfaceType.DISCRETE) 1
        (fun _ => Pose.mk (1 / 2) (1 / 2) 100) = some (tr, p) ∧
      lastSpeeds (tr.take 1) = some (0, 0) ∧
      turnLeftCond (testState InterfaceType.DISCRETE).mouse p = false) := by
  have htl1 : tileLength testEnv.params = 1 := by
    norm_num [tileLength, testEnv, testParams]
  have h12 : ⌊(1 : ℚ) / 2⌋ = 0 := by
    rw [Int.floor_eq_zero_iff, Set.mem_Ico]
    norm_num
  have hdt : getDiscretizedTranslation testEnv.params
      (testState InterfaceType.DISCRETE).mouse = (0, 0) := by
    simp [getDiscretizedTranslation, testState, testMouse, htl1, h12]
    norm_num
  have hrot0 : norm360 (testState InterfaceType.DISCRETE).mouse.currentRotation = 0 := by
    show norm360 (0 : ℚ) = 0
    exact norm360_eq_of _ 0 0 (by norm_num) (by norm_num) (by norm_num)
  have hdr : getDiscretizedRotation (testState InterfaceType.DISCRETE).mouse =
      Direction.NORTH := by
    rw [getDiscretizedRotation_eq _ 0 hrot0]
    norm_num
  have hinit : (testState InterfaceType.DISCRETE).mouse.initialTranslation =
      ((1 : ℚ) / 2, (1 : ℚ) / 2) := rfl
  have hdest : moveForwardDest testEnv (testState InterfaceType.DISCRETE).mouse =
      ((1 / 2, 3 / 2), 0) := by
    simp [moveForwardDest, hdr, hdt, htl1, hinit]
    norm_num
  have hiw : isWall testEnv
      (getDiscretizedTranslation testEnv.params (testState InterfaceType.DISCRETE).mouse)
      (getDiscretizedRotation (testState InterfaceType.DISCRETE).mouse)
      (testState InterfaceType.DISCRETE) = (false, testState InterfaceType.DISCRETE) := by
    simp [isWall, testEnv, testParams, testMaze]
  have hcond : moveForwardCond testEnv (testState InterfaceType.DISCRETE).mouse
      (Pose.mk (1 / 2) 2 0) = false := by
    simp [moveForwardCond, hdr, hdest]
    norm_num
  have hloop : motionLoop 1 (fun _ => Pose.mk (1 / 2) 2 0)
      (moveForwardCond testEnv (testState InterfaceType.DISCRETE).mouse)
      (-(testState InterfaceType.DISCRETE).sim.simSpeed)
      (testState InterfaceType.DISCRETE).sim.simSpeed =
      some ([], Pose.mk (1 / 2) 2 0) := by
    unfold motionLoop
    rw [if_neg (by simp only [hcond]; simp)]
  have htr : moveForwardBodyTrace testEnv (testState InterfaceType.DISCRETE) 1
      (fun _ => Pose.mk (1 / 2) 2 0) =
      some ([Event.setWheelSpeeds 0 0, Event.teleport (1 / 2) (3 / 2) 0],
        Pose.mk (1 / 2) 2 0) := by
    simp only [moveForwardBodyTrace, hiw]
    simp only [runMotion, hloop, hdest]
    simp
  have h270 : norm360 ((testState InterfaceType.DISCRETE).mouse.currentRotation - 90) =
      270 := by
    show norm360 ((0 : ℚ) - 90) = 270
    exact norm360_eq_of _ 270 (-1) (by norm_num) (by norm_num) (by norm_num)
  have h200 : norm360 (200 : ℚ) = 200 := norm360_eq_self _ (by norm_num) (by norm_num)
  have h180 : norm360 (180 : ℚ) = 180 := norm360_eq_self _ (by norm_num) (by norm_num)
  have hcondR : turnRightCond (testState InterfaceType.DISCRETE).mouse
      (Pose.mk (1 / 2) (1 / 2) 200) = false := by
    simp [turnRightCond, hdr, angLt, h270, h200, h180]
    norm_num
  have hloopR : motionLoop 1 (fun _ => Pose.mk (1 / 2) (1 / 2) 200)
      (turnRightCond (testState InterfaceType.DISCRETE).mouse)
      ((testState InterfaceType.DISCRETE).sim.simSpeed / 2)
      ((testState InterfaceType.DISCRETE).sim.simSpeed / 2) =
      some ([], Pose.mk (1 / 2) (1 / 2) 200) := by
    unfold motionLoop
    rw [if_neg (by simp only [hcondR]; simp)]
  have htrR : turnRightBodyTrace (testState InterfaceType.DISCRETE) 1
      (fun _ => Pose.mk (1 / 2) (1 / 2) 200) =
      some ([Event.setWheelSpeeds 0 0,
        Event.teleport (testState InterfaceType.DISCRETE).mouse.currentTranslation.1
          (testState InterfaceType.DISCRETE).mouse.currentTranslation.2
          ((testState InterfaceType.DISCRETE).mouse.currentRotation - 90)],
        Pose.mk (1 / 2) (1 / 2) 200) := by
    simp only [turnRightBodyTrace]
    simp only [runMotion, hloopR]
    simp
  have h90 : norm360 ((testState InterfaceType.DISCRETE).mouse.currentRotation + 90) =
      90 := by
    show norm360 ((0 : ℚ) + 90) = 90
    exact norm360_eq_of _ 90 0 (by norm_num) (by norm_num) (by norm_num)
  have h100 : norm360 (100 : ℚ) = 100 := norm360_eq_self _ (by norm_num) (by norm_num)
  have hcondL : turnLeftCond (testState InterfaceType.DISCRETE).mouse
      (Pose.mk (1 / 2) (1 / 2) 100) = false := by
    simp [turnLeftCond, hdr, angLt, h90, h100, h180]
    norm_num
  have hloopL : motionLoop 1 (fun _ => Pose.mk (1 / 2) (1 / 2) 100)
      (turnLeftCond (testState InterfaceType.DISCRETE).mouse)
      (-((testState InterfaceType.DISCRETE).sim.simSpeed / 2))
      (-((testState InterfaceType.DISCRETE).sim.simSpeed / 2)) =
      some ([], Pose.mk (1 / 2) (1 / 2) 100) := by
    unfold motionLoop
    rw [if_neg (by simp only [hcondL]; simp)]
  have htrL : turnLeftBodyTrace (testState InterfaceType.DISCRETE) 1
      (fun _ => Pose.mk (1 / 2) (1 / 2) 100) =
      some ([Event.setWheelSpeeds 0 0,
        Event.teleport (testState InterfaceType.DISCRETE).mouse.currentTranslation.1
          (testState InterfaceType.DISCRETE).mouse.currentTranslation.2
          ((testState InterfaceType.DISCRETE).mouse.currentRotation + 90)],
        Pose.mk (1 / 2) (1 / 2) 100) := by
    simp only [turnLeftBodyTrace]
    simp only [runMotion, hloopL]
    simp
  refine ⟨?_, ?_, ?_⟩
  · obtain ⟨hls, hc⟩ := C7_teleport_after_zero.1 testEnv (testState InterfaceType.DISCRETE)
      1 _ _ _ htr 1 _ _ _ rfl
    exact ⟨_, _, htr, rfl, hls, hc⟩
  · obtain ⟨hls, hc⟩ := C7_teleport_after_zero.2.1 (testState InterfaceType.DISCRETE)
      1 _ _ _ htrR 1 _ _ _ rfl
    exact ⟨_, _, htrR, hls, hc⟩
  · obtain ⟨hls, hc⟩ := C7_teleport_after_zero.2.2 (testState InterfaceType.DISCRETE)
      1 _ _ _ htrL 1 _ _ _ rfl
    exact ⟨_, _, htrL, hls, hc⟩

end MMS
